import Mathlib

/-!
# Research assistant front end: session controller, service client, health probe

A shallow embedding of the asynchronous logic of the React front end
(`src/frontend/src`): the service client `apiService.js`, the submit handler of
`HomePage.js`, the three state cells of `App.js`, and the health probe, the view
selection and the report view of `ResultsPage.js`.

Conventions of the embedding.

* JavaScript values that cross the wire are `JsValue`s; a number is given by the
  rational that the parsed double stands for.
* The engine's conversion of a value that is not a string to a string is a
  parameter (`ToStringFn`); the arithmetic of doubles in the score labels is modelled
  by correct rounding on rationals (`toDouble`).
* An `async` function is cut at its `await`: the part before it is one function,
  the part after it is a second function that takes the outcome of the awaited
  promise (`Except JsError _`: fulfilled or rejected).
* `useState` cells are fields of a record, and a setter writes its field.
* `console.error` has no effect on the modelled state and is left out.
-/

namespace ResearchApp

/-! ## JavaScript values -/

mutual
/-- A JavaScript value as produced by `JSON.parse`, plus `undefined` (the result of
reading a property that is not there). -/
inductive JsValue where
  | undefined
  | null
  | bool (b : Bool)
  | num (q : ℚ)
  | str (s : String)
  | arr (items : JsList)
  | obj (fields : JsFields)
/-- The elements of an array. -/
inductive JsList where
  | nil
  | cons (head : JsValue) (tail : JsList)
/-- The own properties of an object, in insertion order. -/
inductive JsFields where
  | nil
  | cons (key : String) (value : JsValue) (rest : JsFields)
end

/-- Own-property lookup in an object. -/
def JsFields.lookup (k : String) : JsFields → Option JsValue
  | .nil => none
  | .cons key v rest => if key = k then some v else rest.lookup k

/-- The thrown values of the program: `Error` objects (`Error`, `TypeError`,
`SyntaxError`, ...), which carry a `name` and a string `message`. -/
structure JsError where
  name : String
  message : String
  deriving DecidableEq, Repr

/-- The expression `new Error(message)`. -/
def newError (message : String) : JsError := ⟨"Error", message⟩

/-- The `TypeError` raised by reading property `key` of `null` or `undefined`
(the wording of the message is the engine's). -/
def nullReadError (base key : String) : JsError :=
  ⟨"TypeError", "Cannot read properties of " ++ base ++ " (reading '" ++ key ++ "')"⟩

/-- Property read `v.key`, for the keys this program reads (`error`, `status`,
`success`, `report`), none of which is a built-in property of strings, numbers,
booleans or arrays: an object yields its own property or `undefined`, `null` and
`undefined` raise a `TypeError`, every other value yields `undefined`. -/
def getProp (v : JsValue) (key : String) : Except JsError JsValue :=
  match v with
  | .undefined => .error (nullReadError "undefined" key)
  | .null => .error (nullReadError "null" key)
  | .obj fields => .ok ((fields.lookup key).getD .undefined)
  | _ => .ok .undefined

/-- ToBoolean: the truthiness used by `!`, `||`, `&&` and `if`. -/
def toBoolean : JsValue → Bool
  | .undefined => false
  | .null => false
  | .bool b => b
  | .num q => decide (q ≠ 0)
  | .str s => decide (s ≠ "")
  | .arr _ => true
  | .obj _ => true

/-- The expression `a || b` on values. -/
def jsOr (a b : JsValue) : JsValue := if toBoolean a then a else b

/-- The expression `s || fallback` on strings (the empty string is falsy). -/
def strOr (s fallback : String) : String := if s = "" then fallback else s

/-- The engine's ToString on a value that is not a string: number formatting, and
the conversion of arrays and objects, which may throw. It is a parameter of the
model. -/
abbrev ToStringFn := JsValue → Except JsError String

/-- The expression `new Error(v)`. The message is `v` itself when `v` is a string,
empty when `v` is `undefined`, and the engine's string conversion of `v` otherwise;
when that conversion throws, the expression throws what it threw. -/
def newErrorOf (toStr : ToStringFn) (v : JsValue) : Except JsError JsError :=
  match v with
  | .str s => .ok (newError s)
  | .undefined => .ok (newError "")
  | .null => (toStr .null).map newError
  | .bool b => (toStr (.bool b)).map newError
  | .num q => (toStr (.num q)).map newError
  | .arr items => (toStr (.arr items)).map newError
  | .obj fields => (toStr (.obj fields)).map newError

/-- The comparison `v === s` against a string literal. -/
def strictEqStr (v : JsValue) (s : String) : Bool :=
  match v with
  | .str t => decide (t = s)
  | _ => false

/-- WhiteSpace and LineTerminator code points, the characters `String.prototype.trim`
removes. -/
def isJsWhiteSpace (c : Char) : Bool :=
  let n := c.toNat
  n = 0x9 || n = 0xA || n = 0xB || n = 0xC || n = 0xD || n = 0x20 || n = 0xA0
    || n = 0x1680 || (0x2000 ≤ n && n ≤ 0x200A) || n = 0x2028 || n = 0x2029
    || n = 0x202F || n = 0x205F || n = 0x3000 || n = 0xFEFF

/-- The method `String.prototype.trim`: white space removed from both ends. -/
def jsTrim (s : String) : String :=
  ⟨((s.data.dropWhile isJsWhiteSpace).reverse.dropWhile isJsWhiteSpace).reverse⟩

/-! ## The service client (`services/apiService.js`) -/

/-- The constant `API_BASE_URL`, at its default (the override through `REACT_APP_API_URL` is a
build-time setting). -/
def API_BASE_URL : String := "http://localhost:5000/api"

/-- What `fetch` is called with: the URL, the method, and the value whose
`JSON.stringify` is the body (`undefined` for a request without body). -/
structure Request where
  url : String
  method : String
  payload : JsValue

/-- A `Response` as far as the client reads it: the HTTP status and the outcome of
`response.json()`, which rejects when the body is not JSON. -/
structure Response where
  status : Nat
  json : Except JsError JsValue

/-- The getter `response.ok`: the status is in the range 200 to 299. -/
def Response.ok (r : Response) : Bool := decide (200 ≤ r.status) && decide (r.status ≤ 299)

/-- The network as the client sees it: `fetch` either rejects (transport failure)
or fulfils with a response. -/
abbrev Fetch := Request → Except JsError Response

/-- An object literal with one property. -/
def obj1 (k : String) (v : JsValue) : JsValue := .obj (.cons k v .nil)

/-- An object literal with two properties. -/
def obj2 (k1 : String) (v1 : JsValue) (k2 : String) (v2 : JsValue) : JsValue :=
  .obj (.cons k1 v1 (.cons k2 v2 .nil))

/-- The request of `performResearch` (apiService.js 14-20). -/
def researchRequest (query : String) : Request :=
  ⟨API_BASE_URL ++ "/research", "POST", obj1 "query" (.str query)⟩

/-- The request of `performSearch` (apiService.js 42-48). -/
def searchRequest (query : String) (numResults : JsValue) : Request :=
  ⟨API_BASE_URL ++ "/search", "POST", obj2 "query" (.str query) "num_results" numResults⟩

/-- The request of `checkHealth` (apiService.js 68). -/
def healthRequest : Request := ⟨API_BASE_URL ++ "/health", "GET", .undefined⟩

/-- The function `apiService.performResearch` (apiService.js 12-32). The outer `catch` logs and
rethrows. -/
def performResearch (toStr : ToStringFn) (fetch : Fetch) (query : String) :
    Except JsError JsValue :=
  tryCatch
    (do
      let response ← fetch (researchRequest query)
      if !response.ok then
        let errorData ← response.json
        let field ← getProp errorData "error"
        let error ← newErrorOf toStr (jsOr field (.str "Failed to perform research"))
        throw error
      response.json)
    (fun error => throw error)

/-- The function `apiService.performSearch` (apiService.js 40-60); `numResults` is 10 when the
caller leaves it out. -/
def performSearch (toStr : ToStringFn) (fetch : Fetch) (query : String)
    (numResults : JsValue) : Except JsError JsValue :=
  tryCatch
    (do
      let response ← fetch (searchRequest query numResults)
      if !response.ok then
        let errorData ← response.json
        let field ← getProp errorData "error"
        let error ← newErrorOf toStr (jsOr field (.str "Failed to perform search"))
        throw error
      response.json)
    (fun error => throw error)

/-- The function `apiService.checkHealth` (apiService.js 66-79). -/
def checkHealth (fetch : Fetch) : Except JsError JsValue :=
  tryCatch
    (do
      let response ← fetch healthRequest
      if !response.ok then
        throw (newError "API health check failed")
      response.json)
    (fun error => throw error)

/-! ## The health probe (`pages/ResultsPage.js` 6-21) -/

/-- The values of the `apiStatus` cell. -/
inductive ApiStatus where
  | unknown
  | online
  | offline
  deriving DecidableEq, Repr

/-- The initial value of `apiStatus` (`useState('unknown')`). -/
def initialApiStatus : ApiStatus := .unknown

/-- The function `checkApiHealth` (ResultsPage.js 10-18): the completion of the function (it
fulfils or rejects) and the value it writes to the `apiStatus` cell. Everything
after `try` is inside it, so a throw of `checkHealth` or of the read `health.status`
lands in the `catch`. -/
def checkApiHealth (fetch : Fetch) : Except JsError Unit × ApiStatus :=
  match checkHealth fetch with
  | .error _ => (.ok (), .offline)
  | .ok health =>
    match getProp health "status" with
    | .error _ => (.ok (), .offline)
    | .ok status => (.ok (), if strictEqStr status "ok" then .online else .offline)

/-! ## The application state (`App.js` 10-12) and the submit handler
(`pages/HomePage.js` 11-32) -/

/-- The three `useState` cells of `App`. `researchResults` holds `null` or the value
`performResearch` returned; `error` holds `null` (`none`) or a string. -/
structure AppState where
  researchResults : JsValue
  isLoading : Bool
  error : Option String

/-- The initial values of the cells: `useState(null)`, `useState(false)`,
`useState(null)`. -/
def AppState.initial : AppState := ⟨.null, false, none⟩

/-- Everything the submit handler can touch: the cells of `App`, the calls of
`apiService.performResearch` issued so far (their arguments, oldest first), and the
routes passed to `navigate` so far (oldest first). -/
structure World where
  app : AppState
  researchCalls : List String
  navigations : List String

/-- The world at start-up. -/
def World.initial : World := ⟨AppState.initial, [], []⟩

/-- The setter `setResearchResults`. -/
def setResearchResults (v : JsValue) (w : World) : World :=
  { w with app := { w.app with researchResults := v } }

/-- The setter `setIsLoading`. -/
def setIsLoading (b : Bool) (w : World) : World :=
  { w with app := { w.app with isLoading := b } }

/-- The setter `setError`. -/
def setError (e : Option String) (w : World) : World :=
  { w with app := { w.app with error := e } }

/-- The call `navigate(route)`. -/
def navigate (route : String) (w : World) : World :=
  { w with navigations := w.navigations ++ [route] }

/-- The call `apiService.performResearch(query)` as an effect on the world: one more
call is outstanding. -/
def issueResearch (query : String) (w : World) : World :=
  { w with researchCalls := w.researchCalls ++ [query] }

/-- A computation over the world that may throw; the world it has changed stays
changed when it throws. -/
abbrev Handler (α : Type) := World → Except JsError α × World

/-- The statement `try body catch (e) handler e`. -/
def Handler.tryCatch {α : Type} (body : Handler α) (handler : JsError → Handler α) :
    Handler α :=
  fun w =>
    match body w with
    | (.ok a, w1) => (.ok a, w1)
    | (.error e, w1) => handler e w1

/-- The statement `try body finally fin`, for a `fin` that does not throw. -/
def Handler.tryFinally {α : Type} (body : Handler α) (fin : World → World) : Handler α :=
  fun w =>
    match body w with
    | (r, w1) => (r, fin w1)

/-- How far `handleSubmit` gets before it first yields. -/
inductive Started where
  /-- The early `return` of line 15: the handler is over. -/
  | returned
  /-- Suspended at the `await` of line 23. -/
  | awaiting
  deriving DecidableEq, Repr

/-- The handler `handleSubmit` up to its `await` (HomePage.js 12-23), for the value `query` of
the input cell: the guard, the two setters, and the call of `performResearch`. The
call `e.preventDefault()` acts on the form event alone and is left out. -/
def handleSubmitStart (query : String) (w : World) : Started × World :=
  if jsTrim query = "" then (.returned, w)
  else (.awaiting, issueResearch query (setError none (setIsLoading true w)))

/-- The handler `handleSubmit` from its `await` on (HomePage.js 23-31), given the outcome of the
awaited `performResearch` promise. -/
def handleSubmitResume (outcome : Except JsError JsValue) : Handler Unit :=
  Handler.tryFinally
    (Handler.tryCatch
      (fun w =>
        match outcome with
        | .error e => (.error e, w)
        | .ok results => (.ok (), navigate "/results" (setResearchResults results w)))
      (fun error w =>
        (.ok (), setError (some (strOr error.message
          "An error occurred while performing research")) w)))
    (setIsLoading false)

/-- A whole run of `handleSubmit` on a network that answers `fetch`, with nothing
else scheduled between the `await` and its resumption. -/
def handleSubmit (toStr : ToStringFn) (fetch : Fetch) (query : String) : Handler Unit :=
  fun w =>
    match handleSubmitStart query w with
    | (.returned, w1) => (.ok (), w1)
    | (.awaiting, w1) => handleSubmitResume (performResearch toStr fetch query) w1

/-! ## The view selection of `pages/ResultsPage.js` (23-66) -/

/-- Which of its four returns `ResultsPage` takes. -/
inductive View where
  | loading
  | error
  | noResults
  | report
  deriving DecidableEq, Repr

/-- The test `researchResults && researchResults.success && researchResults.report`
whose negation guards the "No Results" return (line 54): property reads happen only
on a truthy value, so they do not throw. -/
def hasReport (researchResults : JsValue) : Bool :=
  toBoolean researchResults &&
    (match getProp researchResults "success" with
      | .ok v => toBoolean v
      | .error _ => false) &&
    (match getProp researchResults "report" with
      | .ok v => toBoolean v
      | .error _ => false)

/-- The cascade of returns of `ResultsPage` (lines 23, 36, 54, 68). The `error`
cell is tested for truthiness, and the empty string is falsy. -/
def resultsView (s : AppState) : View :=
  if s.isLoading then .loading
  else if (match s.error with
      | some m => decide (m ≠ "")
      | none => false) then .error
  else if !hasReport s.researchResults then .noResults
  else .report

/-- The session states of the specification, as the cells encode them: the view
`ResultsPage` selects is the only place where the program tells them apart. -/
inductive SessionState where
  | idle
  | submitting
  | succeeded
  | failed
  deriving DecidableEq, Repr

/-- The session state shown for the cells `s`. -/
def sessionState (s : AppState) : SessionState :=
  match resultsView s with
  | .loading => .submitting
  | .error => .failed
  | .noResults => .idle
  | .report => .succeeded

/-! ## Interleavings of submissions and resolutions -/

/-- The application between two handler steps: the world, and the calls of
`performResearch` that have not resolved yet (by their position in
`researchCalls`). -/
structure Sys where
  world : World
  pending : List Nat

/-- The application at start-up: nothing is outstanding. -/
def Sys.initial : Sys := ⟨World.initial, []⟩

/-- What can happen next: the form is submitted with the input cell holding `query`,
or an outstanding call resolves with an outcome. -/
inductive Event where
  | submit (query : String)
  | resolve (call : Nat) (outcome : Except JsError JsValue)

/-- One handler step, run to its next suspension point or to completion. A
resolution of a call that is not outstanding cannot happen (`none`). -/
def step (s : Sys) : Event → Option Sys
  | .submit query =>
    match handleSubmitStart query s.world with
    | (.returned, w) => some ⟨w, s.pending⟩
    | (.awaiting, w) => some ⟨w, s.pending ++ [s.world.researchCalls.length]⟩
  | .resolve call outcome =>
    if call ∈ s.pending then
      some ⟨(handleSubmitResume outcome s.world).2, s.pending.erase call⟩
    else none

/-- A sequence of handler steps. -/
def run (s : Sys) : List Event → Option Sys
  | [] => some s
  | e :: es =>
    match step s e with
    | some s1 => run s1 es
    | none => none

/-- The states reachable from start-up by submissions and resolutions. -/
inductive Reachable : Sys → Prop where
  | init : Reachable Sys.initial
  | next {s t : Sys} (e : Event) (before : Reachable s) (h : step s e = some t) : Reachable t

/-- The cells of `App` after a sequence of handler steps (`none` if the sequence
cannot happen). -/
def cellsAfter (s : Sys) (events : List Event) : Option AppState :=
  (run s events).map (fun t => t.world.app)

/-- A well-formed success payload `{ success: true, report: { summary } }`. -/
def sampleResults (summary : String) : JsValue :=
  obj2 "success" (.bool true) "report" (obj1 "summary" (.str summary))

/-- A submission succeeds and a second submission is made. -/
def resubmitAfterSuccess : List Event :=
  [.submit "a", .resolve 0 (.ok (sampleResults "A")), .submit "b"]

/-- A submission succeeds, a second submission is made and fails in transport. -/
def failureAfterSuccess : List Event :=
  resubmitAfterSuccess ++ [.resolve 1 (.error ⟨"TypeError", "Failed to fetch"⟩)]

/-- The `error` cell after a failure with error `e` (HomePage.js 28). -/
def failureMessage (e : JsError) : String :=
  strOr e.message "An error occurred while performing research"

/-- The relation between the cells that every handler step keeps: a loading state
holds no error message, and a stored error message is not the empty string. -/
def CellsConsistent (a : AppState) : Prop :=
  (a.isLoading = true → a.error = none) ∧ ∀ m, a.error = some m → m ≠ ""

/-- The own property `key` of an object; `none` when the value is not an object or
has no such property. -/
def ownField (v : JsValue) (key : String) : Option JsValue :=
  match v with
  | .obj fields => fields.lookup key
  | _ => none

/-- The status the probe writes once `checkHealth` has returned `body`. -/
def probeStatus (body : JsValue) : ApiStatus :=
  if strictEqStr ((ownField body "status").getD .undefined) "ok" then .online else .offline

/-- A network that answers every request with the same response. -/
def answering (status : Nat) (json : Except JsError JsValue) : Fetch :=
  fun _ => .ok ⟨status, json⟩

/-- A network on which every request fails in transport. -/
def unreachable : Fetch := fun _ => .error ⟨"TypeError", "Failed to fetch"⟩

/-! ## The score labels of a source (`pages/ResultsPage.js` 121-124)

JavaScript numbers are IEEE-754 binary64 values. A finite one is given by the
rational it stands for; the sign of zero is dropped, as both zeros print as `0`. -/

/-- A number as it occurs in a score label: a finite double or an infinity. (No NaN
arises from a score that is a number: the only operations are a product by 100 and
`Math.round`.) -/
inductive JsNumber where
  | finite (value : ℚ)
  | posInfinity
  | negInfinity
  deriving DecidableEq, Repr

/-- Rounding to the nearest integer, a tie going to the even one. -/
def roundHalfEven (x : ℚ) : ℤ :=
  if x - ⌊x⌋ < 1 / 2 then ⌊x⌋
  else if 1 / 2 < x - ⌊x⌋ then ⌊x⌋ + 1
  else if ⌊x⌋ % 2 = 0 then ⌊x⌋
  else ⌊x⌋ + 1

/-- The gap between neighbouring doubles at `x`: `2 ^ (e - 52)` where
`2 ^ e ≤ |x| < 2 ^ (e + 1)`, with `e` no less than -1022 (below, doubles are
subnormal and evenly spaced). -/
def ulp (x : ℚ) : ℚ := (2 : ℚ) ^ (max (Int.log 2 |x|) (-1022) - 52)

/-- The double nearest to `x`, a tie going to the even significand, and an infinity
from `2 ^ 1024` on: the rounding of every arithmetic result and of a number that
`JSON.parse` reads. -/
def toDouble (x : ℚ) : JsNumber :=
  if (2 : ℚ) ^ (1024 : ℤ) ≤ roundHalfEven (x / ulp x) * ulp x then .posInfinity
  else if (roundHalfEven (x / ulp x) : ℚ) * ulp x ≤ -(2 : ℚ) ^ (1024 : ℤ) then .negInfinity
  else .finite (roundHalfEven (x / ulp x) * ulp x)

/-- The expression `x * 100` on doubles. -/
def times100 : JsNumber → JsNumber
  | .finite value => toDouble (value * 100)
  | .posInfinity => .posInfinity
  | .negInfinity => .negInfinity

/-- The function `Math.round` on a finite double: the integer closest to `x`, the
upper one when two are equally close. The result is exact. -/
def mathRound (x : ℚ) : ℤ :=
  if x - ⌊x⌋ < 1 / 2 then ⌊x⌋ else ⌊x⌋ + 1

/-- The function `Math.round` on numbers; an infinity is returned as it is. -/
def roundNumber : JsNumber → JsNumber
  | .finite value => .finite (mathRound value)
  | .posInfinity => .posInfinity
  | .negInfinity => .negInfinity

/-- A source of a report, with its two scores as the numbers written in the payload;
`JSON.parse` reads each as the nearest double. -/
structure Source where
  title : String
  url : String
  relevance : ℚ
  reliability : ℚ

/-- The expression `Math.round(score * 100)` for a score of the payload. -/
def scorePercent (score : ℚ) : JsNumber := roundNumber (times100 (toDouble score))

/-- The number shown for relevance: `Math.round(source.relevance * 100)`. -/
def relevancePercent (source : Source) : JsNumber := scorePercent source.relevance

/-- The number shown for reliability: `Math.round(source.reliability * 100)`. -/
def reliabilityPercent (source : Source) : JsNumber := scorePercent source.reliability

/-- The children of a `<small>` of a source: a caption, a number and a unit, which
are shown one after the other. -/
structure ScoreLabel where
  caption : String
  value : JsNumber
  unit : String
  deriving DecidableEq, Repr

/-- The children of the first `<small>` of a source (line 122). -/
def relevanceLabel (source : Source) : ScoreLabel :=
  ⟨"Relevance: ", relevancePercent source, "%"⟩

/-- The children of the second `<small>` of a source (line 123). -/
def reliabilityLabel (source : Source) : ScoreLabel :=
  ⟨"Reliability: ", reliabilityPercent source, "%"⟩

/-! ## The report view (`pages/ResultsPage.js` 66-148)

The report is typed as in the remote contract. A sequence that is absent from the
payload (the property reads `undefined` or `null`) is `none`. -/

/-- A point of a topic. -/
structure Point where
  text : String
  source : String
  url : String

/-- A topic of a report; `points` may be absent. -/
structure Topic where
  name : String
  points : Option (List Point)

/-- A raw search result of a report. -/
structure SearchResult where
  title : String
  url : String
  snippet : String

/-- The `report` of a successful result; each of its four sequences may be absent. -/
structure Report where
  query : String
  summary : String
  topics : Option (List Topic)
  conclusions : Option (List String)
  sources : Option (List Source)
  search_results : Option (List SearchResult)

/-- The element rendered for a point (lines 88-93): the paragraph with its text and
the citation link, with its target and its text. -/
structure PointItem where
  text : String
  href : String
  linkText : String
  deriving DecidableEq, Repr

/-- The element rendered for a topic (lines 85-95): the title and the points. -/
structure TopicItem where
  title : String
  points : List PointItem
  deriving DecidableEq, Repr

/-- The element rendered for a source (lines 114-125): the title link, the URL line
and the two score labels. -/
structure SourceItem where
  linkText : String
  href : String
  urlText : String
  relevance : ScoreLabel
  reliability : ScoreLabel
  deriving DecidableEq, Repr

/-- The element rendered for a search result (lines 135-143). -/
structure ResultItem where
  linkText : String
  href : String
  urlText : String
  snippet : String
  deriving DecidableEq, Repr

/-- The children of the outer `<div>` of the report view, one constructor per child
(lines 70, 76, 82, 100, 110, 131). -/
inductive Block where
  | heading (title : String)
  | summary (text : String)
  | keyFindings (items : List TopicItem)
  | conclusions (items : List String)
  | sources (items : List SourceItem)
  | searchResults (items : List ResultItem)
  deriving DecidableEq, Repr

/-- The call `xs.map(f)` for an `f` that may throw: reading `map` of an absent value
raises a `TypeError`, and the first throw of `f` ends the call. -/
def mapMethod {α β : Type} (xs : Option (List α)) (f : α → Except JsError β) :
    Except JsError (List β) :=
  match xs with
  | none => .error (nullReadError "undefined" "map")
  | some items => items.mapM f

/-- The child expression `xs && xs.map(f)`: an absent `xs` is falsy, the expression
is then `xs` itself and renders nothing; an array, the empty one included, is truthy
and is mapped. -/
def guardedMap {α β : Type} (xs : Option (List α)) (f : α → Except JsError β) :
    Except JsError (List β) :=
  match xs with
  | none => .ok []
  | some items => mapMethod (some items) f

/-- The element of a point (lines 88-93). -/
def renderPoint (point : Point) : Except JsError PointItem :=
  .ok ⟨point.text, point.url, point.source⟩

/-- The element of a topic (lines 85-95). -/
def renderTopic (topic : Topic) : Except JsError TopicItem := do
  let points ← guardedMap topic.points renderPoint
  pure ⟨topic.name, points⟩

/-- The element of a conclusion (line 104). -/
def renderConclusion (conclusion : String) : Except JsError String :=
  .ok conclusion

/-- The element of a source (lines 114-125). -/
def renderSource (source : Source) : Except JsError SourceItem :=
  .ok ⟨source.title, source.url, source.url, relevanceLabel source, reliabilityLabel source⟩

/-- The element of a search result (lines 135-143). -/
def renderResult (result : SearchResult) : Except JsError ResultItem :=
  .ok ⟨result.title, result.url, result.url, result.snippet⟩

/-- The last `return` of `ResultsPage` (lines 68-148), for the report of the result:
the children of the outer `<div>`, in document order. -/
def renderReport (report : Report) : Except JsError (List Block) := do
  let topics ← guardedMap report.topics renderTopic
  let conclusions ← guardedMap report.conclusions renderConclusion
  let sources ← guardedMap report.sources renderSource
  let searchResults ← guardedMap report.search_results renderResult
  pure [.heading ("Research Results: " ++ report.query), .summary report.summary,
    .keyFindings topics, .conclusions conclusions, .sources sources,
    .searchResults searchResults]

/-- The value clamped to the interval [0, 1]. -/
def clamp01 (x : ℚ) : ℚ := max 0 (min 1 x)

/-- The sequence an optional sequence stands for: an absent one is empty. -/
def itemsOf {α : Type} (xs : Option (List α)) : List α := xs.getD []

/-- The element of a point, as a value. -/
def pointItem (point : Point) : PointItem := ⟨point.text, point.url, point.source⟩

/-- The element of a topic, as a value: an absent `points` counts as empty. -/
def topicItem (topic : Topic) : TopicItem :=
  ⟨topic.name, (itemsOf topic.points).map pointItem⟩

/-- The element of a source, as a value. -/
def sourceItem (source : Source) : SourceItem :=
  ⟨source.title, source.url, source.url, relevanceLabel source, reliabilityLabel source⟩

/-- The element of a search result, as a value. -/
def resultItem (result : SearchResult) : ResultItem :=
  ⟨result.title, result.url, result.url, result.snippet⟩

/-- The report with every absent sequence replaced by the empty one. -/
def fillAbsent (report : Report) : Report :=
  { report with
    topics := some ((itemsOf report.topics).map
      (fun topic => { topic with points := some (itemsOf topic.points) }))
    conclusions := some (itemsOf report.conclusions)
    sources := some (itemsOf report.sources)
    search_results := some (itemsOf report.search_results) }

/-- The report of the end-to-end scenario of the specification: one topic with one
point, one conclusion, one source, and no `search_results`. -/
def sampleReport : Report :=
  { query := "electric vehicle impacts"
    summary := "..."
    topics := some [⟨"Overview", some [⟨"...", "X", "http://x"⟩]⟩]
    conclusions := some ["c1"]
    sources := some [⟨"S1", "http://s1", 9 / 10, 8 / 10⟩]
    search_results := none }

/-- A stand-in for the engine's string conversion in examples where the value
converted is a string, so that no conversion takes place. -/
def plainToString : ToStringFn := fun _ => .ok "[object Object]"

/-! ## Lemmas on the handler -/

theorem handleSubmitStart_of_nonempty (query : String) (w : World) (h : jsTrim query ≠ "") :
    handleSubmitStart query w
      = (.awaiting, issueResearch query (setError none (setIsLoading true w))) := by
  simp [handleSubmitStart, h]

theorem handleSubmitResume_ok (results : JsValue) (w : World) :
    handleSubmitResume (.ok results) w
      = (.ok (), setIsLoading false (navigate "/results" (setResearchResults results w))) := by
  rfl

theorem handleSubmitResume_error (e : JsError) (w : World) :
    handleSubmitResume (.error e) w
      = (.ok (), setIsLoading false (setError (some (failureMessage e)) w)) := by
  rfl

theorem step_submit_of_nonempty (s : Sys) (query : String) (h : jsTrim query ≠ "") :
    step s (.submit query)
      = some ⟨issueResearch query (setError none (setIsLoading true s.world)),
          s.pending ++ [s.world.researchCalls.length]⟩ := by
  simp [step, handleSubmitStart_of_nonempty _ _ h]

theorem step_resolve_of_mem (s : Sys) (call : Nat) (outcome : Except JsError JsValue)
    (h : call ∈ s.pending) :
    step s (.resolve call outcome)
      = some ⟨(handleSubmitResume outcome s.world).2, s.pending.erase call⟩ := by
  simp [step, h]

theorem dropWhile_dropWhile_reverse_eq_nil (p : Char → Bool) (l : List Char) :
    ((l.dropWhile p).reverse.dropWhile p) = [] ↔ ∀ c ∈ l, p c = true := by
  rw [List.dropWhile_eq_nil_iff]
  constructor
  · intro h
    have hnil : l.dropWhile p = [] := by
      cases hd : l.dropWhile p with
      | nil => rfl
      | cons x xs =>
        have hx : p x = true := h x (by simp [hd])
        have hhead := List.head_dropWhile_not p l (by simp [hd])
        simp [hd, hx] at hhead
    exact List.dropWhile_eq_nil_iff.mp hnil
  · intro h
    have hnil : l.dropWhile p = [] := List.dropWhile_eq_nil_iff.mpr h
    simp [hnil]

/-- A string trims to the empty string exactly when it has white space only. -/
theorem jsTrim_eq_empty_iff (s : String) :
    jsTrim s = "" ↔ ∀ c ∈ s.data, isJsWhiteSpace c = true := by
  rw [← dropWhile_dropWhile_reverse_eq_nil]
  constructor
  · intro h
    have := congrArg String.data h
    simpa [jsTrim] using this
  · intro h
    simp [jsTrim, h]

/-! ## C1: two overlapping submissions -/

/-- C1 (counterexample): from start-up, submissions A (`"a"`) and B (`"b"`) are both
outstanding; B resolves with its results and A resolves after it with other results.
The cells then hold A's results, not B's, while in the order A then B they hold B's:
the late resolution of A overwrote the state and the outcome depends on the order. -/
theorem stale_result_overwrites :
    ∃ afterB afterBA afterAB : Sys,
      run Sys.initial [.submit "a", .submit "b", .resolve 1 (.ok (sampleResults "B"))]
        = some afterB ∧
      run Sys.initial [.submit "a", .submit "b", .resolve 1 (.ok (sampleResults "B")),
        .resolve 0 (.ok (sampleResults "A"))] = some afterBA ∧
      run Sys.initial [.submit "a", .submit "b", .resolve 0 (.ok (sampleResults "A")),
        .resolve 1 (.ok (sampleResults "B"))] = some afterAB ∧
      afterB.world.app.researchResults = sampleResults "B" ∧
      afterBA.world.app.researchResults = sampleResults "A" ∧
      afterAB.world.app.researchResults = sampleResults "B" ∧
      sampleResults "A" ≠ sampleResults "B" := by
  refine ⟨_, _, _, rfl, rfl, rfl, rfl, rfl, rfl, ?_⟩
  simp [sampleResults, obj1, obj2]

/-- C1 (amended): submissions A then B of non-empty queries, B issued before A
resolves. After both have resolved `isLoading` is false, and each of the other two
cells holds what the resolution that wrote it last left there: `researchResults` the
results of the success that resolved last (its prior value if neither succeeded),
`error` the message of the failure that resolved last (`null` if neither failed).
So with one success and one failure the final cells do not depend on the order, and
with two successes (two failures) they are those of the later resolution: A's, when
A resolves after B. -/
theorem overlapping_submissions_last_resolution_wins (s : Sys) (qA qB : String)
    (hA : jsTrim qA ≠ "") (hB : jsTrim qB ≠ "") :
    (∀ rA rB : JsValue,
      cellsAfter s [.submit qA, .submit qB,
          .resolve s.world.researchCalls.length (.ok rA),
          .resolve (s.world.researchCalls.length + 1) (.ok rB)]
        = some ⟨rB, false, none⟩ ∧
      cellsAfter s [.submit qA, .submit qB,
          .resolve (s.world.researchCalls.length + 1) (.ok rB),
          .resolve s.world.researchCalls.length (.ok rA)]
        = some ⟨rA, false, none⟩) ∧
    (∀ (rA : JsValue) (eB : JsError),
      cellsAfter s [.submit qA, .submit qB,
          .resolve s.world.researchCalls.length (.ok rA),
          .resolve (s.world.researchCalls.length + 1) (.error eB)]
        = some ⟨rA, false, some (failureMessage eB)⟩ ∧
      cellsAfter s [.submit qA, .submit qB,
          .resolve (s.world.researchCalls.length + 1) (.error eB),
          .resolve s.world.researchCalls.length (.ok rA)]
        = some ⟨rA, false, some (failureMessage eB)⟩) ∧
    (∀ (eA : JsError) (rB : JsValue),
      cellsAfter s [.submit qA, .submit qB,
          .resolve s.world.researchCalls.length (.error eA),
          .resolve (s.world.researchCalls.length + 1) (.ok rB)]
        = some ⟨rB, false, some (failureMessage eA)⟩ ∧
      cellsAfter s [.submit qA, .submit qB,
          .resolve (s.world.researchCalls.length + 1) (.ok rB),
          .resolve s.world.researchCalls.length (.error eA)]
        = some ⟨rB, false, some (failureMessage eA)⟩) ∧
    (∀ eA eB : JsError,
      cellsAfter s [.submit qA, .submit qB,
          .resolve s.world.researchCalls.length (.error eA),
          .resolve (s.world.researchCalls.length + 1) (.error eB)]
        = some ⟨s.world.app.researchResults, false, some (failureMessage eB)⟩ ∧
      cellsAfter s [.submit qA, .submit qB,
          .resolve (s.world.researchCalls.length + 1) (.error eB),
          .resolve s.world.researchCalls.length (.error eA)]
        = some ⟨s.world.app.researchResults, false, some (failureMessage eA)⟩) := by
  have hne : s.world.researchCalls.length + 1 ≠ s.world.researchCalls.length := by omega
  refine ⟨?_, ?_, ?_, ?_⟩ <;> intros <;> constructor <;>
    simp [cellsAfter, run, step_submit_of_nonempty, hA, hB, step_resolve_of_mem,
      handleSubmitResume_ok, handleSubmitResume_error, issueResearch, setError,
      setIsLoading, setResearchResults, navigate, hne, hne.symm, List.mem_erase_of_ne]

/-- C1 (witness): the amended statement at start-up with the queries `"a"` and
`"b"`. -/
theorem overlapping_submissions_witness :
    jsTrim "a" ≠ "" ∧ jsTrim "b" ≠ "" ∧
    cellsAfter Sys.initial [.submit "a", .submit "b",
        .resolve 1 (.ok (sampleResults "B")), .resolve 0 (.ok (sampleResults "A"))]
      = some ⟨sampleResults "A", false, none⟩ :=
  ⟨by decide, by decide,
    ((overlapping_submissions_last_resolution_wins Sys.initial "a" "b" (by decide)
      (by decide)).1 (sampleResults "A") (sampleResults "B")).2⟩

/-! ## C2, C3: the guard and the synchronous part of `handleSubmit` -/

/-- C2: for every query that is empty after trimming (it then has white space only),
on every network and from every world, `handleSubmit` takes the early return and
completes with the world as it was: the three cells, the list of `performResearch`
calls and the list of navigations are unchanged; as a handler step it leaves the
application as it was. -/
theorem blank_query_is_ignored (toStr : ToStringFn) (fetch : Fetch) (query : String) (s : Sys)
    (h : jsTrim query = "") :
    (∀ c ∈ query.data, isJsWhiteSpace c = true) ∧
    handleSubmitStart query s.world = (.returned, s.world) ∧
    handleSubmit toStr fetch query s.world = (.ok (), s.world) ∧
    step s (.submit query) = some s := by
  refine ⟨(jsTrim_eq_empty_iff query).mp h, ?_, ?_, ?_⟩ <;>
    simp [handleSubmit, step, handleSubmitStart, h]

/-- C2 (witness): a query of a blank, a tab and a line feed, at start-up, on a
network that would answer with results. -/
theorem blank_query_is_ignored_witness :
    jsTrim " \t\n" = "" ∧
    handleSubmit plainToString (fun _ => .ok ⟨200, .ok (sampleResults "r")⟩) " \t\n"
      World.initial = (.ok (), World.initial) :=
  ⟨by decide,
    (blank_query_is_ignored plainToString (fun _ => .ok ⟨200, .ok (sampleResults "r")⟩)
      " \t\n" Sys.initial (by decide)).2.2.1⟩

/-- C3: for every query that is non-empty after trimming and from every world, the
part of `handleSubmit` before its `await` ends suspended at the `await` with
`isLoading` true and `error` null, so that the session shows as Submitting; it has
issued exactly one more `performResearch` call, with that query, has not navigated
and has left `researchResults` as it was. -/
theorem submit_enters_submitting (query : String) (w : World) (h : jsTrim query ≠ "") :
    (handleSubmitStart query w).1 = .awaiting ∧
    (handleSubmitStart query w).2.app.isLoading = true ∧
    (handleSubmitStart query w).2.app.error = none ∧
    sessionState (handleSubmitStart query w).2.app = .submitting ∧
    (handleSubmitStart query w).2.researchCalls = w.researchCalls ++ [query] ∧
    (handleSubmitStart query w).2.navigations = w.navigations ∧
    (handleSubmitStart query w).2.app.researchResults = w.app.researchResults := by
  rw [handleSubmitStart_of_nonempty query w h]
  simp [issueResearch, setError, setIsLoading, sessionState, resultsView]

/-- C3 (witness): the query `"electric vehicle impacts"` at start-up. -/
theorem submit_enters_submitting_witness :
    jsTrim "electric vehicle impacts" ≠ "" ∧
    sessionState (handleSubmitStart "electric vehicle impacts" World.initial).2.app
      = .submitting ∧
    (handleSubmitStart "electric vehicle impacts" World.initial).2.researchCalls
      = ["electric vehicle impacts"] :=
  ⟨by decide,
    (submit_enters_submitting "electric vehicle impacts" World.initial (by decide)).2.2.2.1,
    (submit_enters_submitting "electric vehicle impacts" World.initial (by decide)).2.2.2.2.1⟩

/-! ## C4: what the cells hold in each session state -/

/-- A state produced by a run from start-up is reachable. -/
theorem reachable_of_run_from {s : Sys} (hs : Reachable s) :
    ∀ (events : List Event) (t : Sys), run s events = some t → Reachable t := by
  intro events
  induction events generalizing s with
  | nil =>
    intro t h
    simp only [run, Option.some.injEq] at h
    exact h ▸ hs
  | cons e es ih =>
    intro t h
    simp only [run] at h
    cases hstep : step s e with
    | none => simp [hstep] at h
    | some s1 =>
      rw [hstep] at h
      exact ih (Reachable.next e hs hstep) t h

theorem reachable_of_run (events : List Event) (t : Sys)
    (h : run Sys.initial events = some t) : Reachable t :=
  reachable_of_run_from Reachable.init events t h

theorem failureMessage_ne_empty (e : JsError) : failureMessage e ≠ "" := by
  unfold failureMessage strOr
  split
  · decide
  · assumption

theorem cellsConsistent_step {s t : Sys} (e : Event) (h : step s e = some t)
    (hs : CellsConsistent s.world.app) : CellsConsistent t.world.app := by
  cases e with
  | submit query =>
    by_cases hq : jsTrim query = ""
    · simp [step, handleSubmitStart, hq] at h
      exact h ▸ hs
    · rw [step_submit_of_nonempty s query hq] at h
      simp only [Option.some.injEq] at h
      subst h
      simp [CellsConsistent, issueResearch, setError, setIsLoading]
  | resolve call outcome =>
    by_cases hc : call ∈ s.pending
    · rw [step_resolve_of_mem s call outcome hc] at h
      simp only [Option.some.injEq] at h
      subst h
      cases outcome with
      | ok results =>
        rw [handleSubmitResume_ok]
        exact ⟨by simp [setIsLoading], by simpa [setIsLoading, navigate, setResearchResults]
          using hs.2⟩
      | error err =>
        rw [handleSubmitResume_error]
        refine ⟨by simp [setIsLoading], ?_⟩
        intro m hm
        simp [setIsLoading, setError] at hm
        exact hm ▸ failureMessage_ne_empty err
    · simp [step, hc] at h

theorem cellsConsistent_of_reachable {s : Sys} (h : Reachable s) :
    CellsConsistent s.world.app := by
  induction h with
  | init => simp [CellsConsistent, Sys.initial, World.initial, AppState.initial]
  | next e _ hstep ih => exact cellsConsistent_step e hstep ih

/-- C4 (counterexample): two reachable states that hold a report while the session
is not Succeeded. After a first submission has succeeded, a second submission shows
as Submitting with the first report still in `researchResults`; when the second
submission then fails, the session shows as Failed and the report is still there. -/
theorem report_held_outside_succeeded :
    ∃ s t : Sys,
      run Sys.initial resubmitAfterSuccess = some s ∧
      Reachable s ∧ hasReport s.world.app.researchResults = true ∧
      sessionState s.world.app = .submitting ∧
      run Sys.initial failureAfterSuccess = some t ∧
      Reachable t ∧ hasReport t.world.app.researchResults = true ∧
      sessionState t.world.app = .failed :=
  ⟨_, _, rfl, reachable_of_run resubmitAfterSuccess _ rfl, rfl, rfl, rfl,
    reachable_of_run failureAfterSuccess _ rfl, rfl, rfl⟩

/-- C4 (amended): in every state reachable from start-up by submissions and
resolutions, an error message is held iff the session state is Failed, so none is
held while Submitting, Succeeded or Idle; and whenever the session state is
Succeeded a report is held. Nothing is claimed in the other direction for the
report, which stays in `researchResults` through later submissions. -/
theorem session_cells_invariant (s : Sys) (h : Reachable s) :
    (s.world.app.error ≠ none ↔ sessionState s.world.app = .failed) ∧
    (sessionState s.world.app = .succeeded → hasReport s.world.app.researchResults = true) ∧
    (sessionState s.world.app = .submitting → s.world.app.error = none) ∧
    (sessionState s.world.app = .succeeded → s.world.app.error = none) ∧
    (sessionState s.world.app = .idle → s.world.app.error = none) := by
  obtain ⟨hload, hmsg⟩ := cellsConsistent_of_reachable h
  cases hl : s.world.app.isLoading with
  | true =>
    have he := hload hl
    simp [sessionState, resultsView, hl, he]
  | false =>
    cases he : s.world.app.error with
    | none =>
      cases hr : hasReport s.world.app.researchResults <;>
        simp [sessionState, resultsView, hl, he, hr]
    | some m =>
      have hm := hmsg m he
      simp [sessionState, resultsView, hl, he, hm]

/-- C4 (witness): the amended statement at the state where a second submission has
failed after a first one succeeded. -/
theorem session_cells_invariant_witness :
    ∃ t : Sys,
      run Sys.initial failureAfterSuccess = some t ∧ Reachable t ∧
      (t.world.app.error ≠ none ↔ sessionState t.world.app = .failed) :=
  ⟨_, rfl, reachable_of_run failureAfterSuccess _ rfl,
    (session_cells_invariant _ (reachable_of_run failureAfterSuccess _ rfl)).1⟩

/-! ## C5, C6: `performResearch` and `performSearch` -/

theorem getProp_of_ownField (body v : JsValue) (key : String)
    (h : ownField body key = some v) : getProp body key = .ok v := by
  cases body <;> simp_all [ownField, getProp]

theorem getProp_of_ownField_none (body : JsValue) (key : String)
    (hn : body ≠ .null) (hu : body ≠ .undefined) (h : ownField body key = none) :
    getProp body key = .ok .undefined := by
  cases body <;> simp_all [ownField, getProp]

theorem performResearch_of_ok (toStr : ToStringFn) (fetch : Fetch) (query : String)
    (resp : Response) (hf : fetch (researchRequest query) = .ok resp) (hok : resp.ok = true) :
    performResearch toStr fetch query = resp.json := by
  cases hj : resp.json <;>
    simp [performResearch, hf, hok, hj, tryCatch, tryCatchThe, MonadExcept.tryCatch,
      Except.tryCatch, bind, Except.bind, throw, throwThe, MonadExcept.throw] <;> rfl

/-- What the failure branch of the two calls throws, given the parsed body. -/
theorem failure_branch (toStr : ToStringFn) (body : JsValue) (fallback : String) :
    ∀ r : Except JsError JsValue,
      r = (getProp body "error").bind (fun field =>
          (newErrorOf toStr (jsOr field (.str fallback))).bind (fun error => .error error)) →
      (∃ e, r = .error e) ∧
      (∀ m, ownField body "error" = some (.str m) → m ≠ "" → r = .error (newError m)) ∧
      (body ≠ .null → body ≠ .undefined →
        (ownField body "error" = none ∨
          ∃ v, ownField body "error" = some v ∧ toBoolean v = false) →
        r = .error (newError fallback)) ∧
      (∀ v, ownField body "error" = some v → toBoolean v = true → (∀ m, v ≠ .str m) →
        r = match toStr v with
          | .ok m => .error (newError m)
          | .error e => .error e) := by
  intro r hr
  subst hr
  refine ⟨?_, ?_, ?_, ?_⟩
  · cases hg : getProp body "error" with
    | error e => exact ⟨e, rfl⟩
    | ok field =>
      cases hn : newErrorOf toStr (jsOr field (.str fallback)) with
      | error e => exact ⟨e, by simp [Except.bind, hn]⟩
      | ok err => exact ⟨err, by simp [Except.bind, hn]⟩
  · intro m hv hm
    simp [getProp_of_ownField _ _ _ hv, Except.bind, jsOr, toBoolean, hm, newErrorOf]
  · intro hn hu h
    rcases h with h | ⟨v, hv, hf⟩
    · simp [getProp_of_ownField_none _ _ hn hu h, Except.bind, jsOr, toBoolean, newErrorOf]
    · simp [getProp_of_ownField _ _ _ hv, Except.bind, jsOr, hf, newErrorOf]
  · intro v hv ht hs
    simp only [getProp_of_ownField _ _ _ hv, Except.bind, jsOr, ht, if_true]
    cases v with
    | str m => exact absurd rfl (hs m)
    | undefined => simp [toBoolean] at ht
    | null => simp [toBoolean] at ht
    | bool b => cases h : toStr (.bool b) <;> simp [newErrorOf, h, Except.map]
    | num q => cases h : toStr (.num q) <;> simp [newErrorOf, h, Except.map]
    | arr items => cases h : toStr (.arr items) <;> simp [newErrorOf, h, Except.map]
    | obj fields => cases h : toStr (.obj fields) <;> simp [newErrorOf, h, Except.map]

theorem performResearch_of_not_ok (toStr : ToStringFn) (fetch : Fetch) (query : String)
    (resp : Response) (body : JsValue) (hf : fetch (researchRequest query) = .ok resp)
    (hok : resp.ok = false) (hb : resp.json = .ok body) :
    performResearch toStr fetch query
      = (getProp body "error").bind (fun field =>
          (newErrorOf toStr (jsOr field (.str "Failed to perform research"))).bind
            (fun error => .error error)) := by
  cases hg : getProp body "error" with
  | error e =>
    simp [performResearch, hf, hok, hb, hg, tryCatch, tryCatchThe, MonadExcept.tryCatch,
      Except.tryCatch, bind, Except.bind, throw, throwThe, MonadExcept.throw]
    rfl
  | ok field =>
    cases hn : newErrorOf toStr (jsOr field (.str "Failed to perform research")) <;>
      simp [performResearch, hf, hok, hb, hg, hn, tryCatch, tryCatchThe,
        MonadExcept.tryCatch, Except.tryCatch, bind, Except.bind, throw, throwThe,
        MonadExcept.throw] <;> rfl

theorem performSearch_of_not_ok (toStr : ToStringFn) (fetch : Fetch) (query : String)
    (numResults : JsValue) (resp : Response) (body : JsValue)
    (hf : fetch (searchRequest query numResults) = .ok resp) (hok : resp.ok = false)
    (hb : resp.json = .ok body) :
    performSearch toStr fetch query numResults
      = (getProp body "error").bind (fun field =>
          (newErrorOf toStr (jsOr field (.str "Failed to perform search"))).bind
            (fun error => .error error)) := by
  cases hg : getProp body "error" with
  | error e =>
    simp [performSearch, hf, hok, hb, hg, tryCatch, tryCatchThe, MonadExcept.tryCatch,
      Except.tryCatch, bind, Except.bind, throw, throwThe, MonadExcept.throw]
    rfl
  | ok field =>
    cases hn : newErrorOf toStr (jsOr field (.str "Failed to perform search")) <;>
      simp [performSearch, hf, hok, hb, hg, hn, tryCatch, tryCatchThe,
        MonadExcept.tryCatch, Except.tryCatch, bind, Except.bind, throw, throwThe,
        MonadExcept.throw] <;> rfl

/-- C5 (counterexample): on a response with status 200 whose body is
`{ "success": false }`, and on one whose body is `{ "success": true }` without a
report, `performResearch` returns the body to its caller and does not throw. -/
theorem unsuccessful_payload_is_returned :
    performResearch plainToString (answering 200 (.ok (obj1 "success" (.bool false)))) "q"
      = .ok (obj1 "success" (.bool false)) ∧
    performResearch plainToString (answering 200 (.ok (obj1 "success" (.bool true)))) "q"
      = .ok (obj1 "success" (.bool true)) ∧
    ownField (obj1 "success" (.bool true)) "report" = none :=
  ⟨rfl, rfl, rfl⟩

/-- C5 (amended): for every response with a successful HTTP status and a parseable
body, `performResearch` returns that body to its caller, whatever its `success` and
`report` properties. A body whose `success` is false or that has no `report` is
turned down later, by `ResultsPage`: with such a value in `researchResults` (and
neither loading nor an error) it shows the "No Results" notice, not a report. -/
theorem performResearch_returns_body (toStr : ToStringFn) (fetch : Fetch) (query : String)
    (resp : Response) (body : JsValue) (hf : fetch (researchRequest query) = .ok resp)
    (hok : resp.ok = true)
    (hb : resp.json = .ok body) :
    performResearch toStr fetch query = .ok body ∧
    ((ownField body "success" = some (.bool false) ∨ ownField body "report" = none) →
      hasReport body = false ∧ resultsView ⟨body, false, none⟩ = .noResults) := by
  refine ⟨by rw [performResearch_of_ok toStr fetch query resp hf hok, hb], ?_⟩
  intro h
  have hr : hasReport body = false := by
    cases body <;> try simp [hasReport, toBoolean, getProp]
    rename_i fields
    rcases h with h | h
    · simp [ownField] at h
      simp [hasReport, toBoolean, getProp, h]
    · simp [ownField] at h
      simp [hasReport, toBoolean, getProp, h]
  exact ⟨hr, by simp [resultsView, hr]⟩

/-- C5 (witness): the amended statement on a network that answers 200 with
`{ "success": false }`. -/
theorem performResearch_returns_body_witness :
    performResearch plainToString (answering 200 (.ok (obj1 "success" (.bool false)))) "q"
      = .ok (obj1 "success" (.bool false)) ∧
    resultsView ⟨obj1 "success" (.bool false), false, none⟩ = .noResults :=
  ⟨(performResearch_returns_body plainToString
      (answering 200 (.ok (obj1 "success" (.bool false)))) "q"
      ⟨200, .ok (obj1 "success" (.bool false))⟩ (obj1 "success" (.bool false))
      rfl rfl rfl).1,
    ((performResearch_returns_body plainToString
      (answering 200 (.ok (obj1 "success" (.bool false)))) "q"
      ⟨200, .ok (obj1 "success" (.bool false))⟩ (obj1 "success" (.bool false))
      rfl rfl rfl).2 (Or.inl rfl)).2⟩

/-- C6 (counterexample): a response with status 500 whose body is `{ "error": "" }`.
The `error` field is present, yet `performResearch` and `performSearch` fail with the
generic fallback as message and not with the field, the empty string. -/
theorem empty_error_field_gives_fallback :
    ownField (obj1 "error" (.str "")) "error" = some (.str "") ∧
    performResearch plainToString (answering 500 (.ok (obj1 "error" (.str "")))) "q"
      = .error (newError "Failed to perform research") ∧
    performSearch plainToString (answering 500 (.ok (obj1 "error" (.str "")))) "q" (.num 10)
      = .error (newError "Failed to perform search") ∧
    newError "Failed to perform research" ≠ newError "" ∧
    newError "Failed to perform search" ≠ newError "" :=
  ⟨rfl, rfl, rfl, by decide, by decide⟩

/-- C6 (amended): for every response with a non-success HTTP status and a parseable
body, `performResearch` and `performSearch` fail and never return a value, each on
its own request and whatever the other request is answered. The error's message is
the body's `error` field whenever that field is a non-empty string, and the generic
fallback when the body is not `null` and the field is absent or falsy (such as the
empty string). A truthy field that is not a string is converted to a string by the
engine, and the message is the outcome of that conversion. -/
theorem non_success_status_fails (toStr : ToStringFn) (fetch : Fetch) (query : String)
    (numResults : JsValue) :
    (∀ resp body, fetch (researchRequest query) = .ok resp → resp.ok = false →
      resp.json = .ok body →
      (∃ e, performResearch toStr fetch query = .error e) ∧
      (∀ m, ownField body "error" = some (.str m) → m ≠ "" →
        performResearch toStr fetch query = .error (newError m)) ∧
      (body ≠ .null → body ≠ .undefined →
        (ownField body "error" = none ∨
          ∃ v, ownField body "error" = some v ∧ toBoolean v = false) →
        performResearch toStr fetch query
          = .error (newError "Failed to perform research")) ∧
      (∀ v, ownField body "error" = some v → toBoolean v = true → (∀ m, v ≠ .str m) →
        performResearch toStr fetch query
          = match toStr v with
            | .ok m => .error (newError m)
            | .error e => .error e)) ∧
    (∀ resp body, fetch (searchRequest query numResults) = .ok resp → resp.ok = false →
      resp.json = .ok body →
      (∃ e, performSearch toStr fetch query numResults = .error e) ∧
      (∀ m, ownField body "error" = some (.str m) → m ≠ "" →
        performSearch toStr fetch query numResults = .error (newError m)) ∧
      (body ≠ .null → body ≠ .undefined →
        (ownField body "error" = none ∨
          ∃ v, ownField body "error" = some v ∧ toBoolean v = false) →
        performSearch toStr fetch query numResults
          = .error (newError "Failed to perform search")) ∧
      (∀ v, ownField body "error" = some v → toBoolean v = true → (∀ m, v ≠ .str m) →
        performSearch toStr fetch query numResults
          = match toStr v with
            | .ok m => .error (newError m)
            | .error e => .error e)) := by
  constructor
  · intro resp body hf hok hb
    exact failure_branch toStr body "Failed to perform research" _
      (performResearch_of_not_ok toStr fetch query resp body hf hok hb)
  · intro resp body hf hok hb
    exact failure_branch toStr body "Failed to perform search" _
      (performSearch_of_not_ok toStr fetch query numResults resp body hf hok hb)

/-- C6 (witness): a network that answers `/research` with 404 and
`{ "error": "Query is required" }` while it answers every other request with 200:
`performResearch` fails with the field as message. And a network that answers 404
with that body to every request, for `performSearch`. -/
theorem non_success_status_fails_witness :
    performResearch plainToString
        (fun request =>
          if request.url = API_BASE_URL ++ "/research" then
            .ok ⟨404, .ok (obj1 "error" (.str "Query is required"))⟩
          else .ok ⟨200, .ok (.arr .nil)⟩) "q"
      = .error (newError "Query is required") ∧
    performSearch plainToString
        (answering 404 (.ok (obj1 "error" (.str "Query is required")))) "q" (.num 10)
      = .error (newError "Query is required") :=
  ⟨((non_success_status_fails plainToString
        (fun request =>
          if request.url = API_BASE_URL ++ "/research" then
            .ok ⟨404, .ok (obj1 "error" (.str "Query is required"))⟩
          else .ok ⟨200, .ok (.arr .nil)⟩) "q" (.num 10)).1
      ⟨404, .ok (obj1 "error" (.str "Query is required"))⟩
      (obj1 "error" (.str "Query is required")) rfl rfl rfl).2.1
      "Query is required" rfl (by decide),
    ((non_success_status_fails plainToString
        (answering 404 (.ok (obj1 "error" (.str "Query is required")))) "q" (.num 10)).2
      ⟨404, .ok (obj1 "error" (.str "Query is required"))⟩
      (obj1 "error" (.str "Query is required")) rfl rfl rfl).2.1
      "Query is required" rfl (by decide)⟩

/-! ## C7: a failure of `performResearch` inside `handleSubmit` -/

/-- C7: for every non-empty query, every network and every error `e` that
`performResearch` throws on it, `handleSubmit` completes without raising. It ends
with `error` holding the message of `e` (the fallback
`'An error occurred while performing research'` when the message is empty),
`isLoading` false and `researchResults` as before; it has not navigated, and it has
issued one `performResearch` call and no second one. The same holds for the part of
the handler after its `await`, in whatever world it resumes. -/
theorem research_failure_is_caught (toStr : ToStringFn) (fetch : Fetch) (query : String)
    (w : World) (e : JsError)
    (hq : jsTrim query ≠ "") (he : performResearch toStr fetch query = .error e) :
    (handleSubmit toStr fetch query w).1 = .ok () ∧
    (handleSubmit toStr fetch query w).2.app.error
      = some (if e.message = "" then "An error occurred while performing research"
          else e.message) ∧
    (handleSubmit toStr fetch query w).2.app.isLoading = false ∧
    (handleSubmit toStr fetch query w).2.app.researchResults = w.app.researchResults ∧
    (handleSubmit toStr fetch query w).2.navigations = w.navigations ∧
    (handleSubmit toStr fetch query w).2.researchCalls = w.researchCalls ++ [query] ∧
    (∀ w1 : World,
      (handleSubmitResume (.error e) w1).1 = .ok () ∧
      (handleSubmitResume (.error e) w1).2
        = { w1 with app := ⟨w1.app.researchResults, false,
              some (if e.message = "" then "An error occurred while performing research"
                else e.message)⟩ }) := by
  have hrun : handleSubmit toStr fetch query w
      = handleSubmitResume (.error e)
          (issueResearch query (setError none (setIsLoading true w))) := by
    simp [handleSubmit, handleSubmitStart_of_nonempty query w hq, he]
  rw [hrun]
  simp [handleSubmitResume_error, failureMessage, strOr, issueResearch, setError,
    setIsLoading]

/-- C7 (witness): the query `"q"` at start-up on a network that is unreachable. -/
theorem research_failure_is_caught_witness :
    jsTrim "q" ≠ "" ∧
    performResearch plainToString unreachable "q" = .error ⟨"TypeError", "Failed to fetch"⟩ ∧
    (handleSubmit plainToString unreachable "q" World.initial).1 = .ok () ∧
    (handleSubmit plainToString unreachable "q" World.initial).2.app.error
      = some "Failed to fetch" :=
  ⟨by decide, rfl,
    (research_failure_is_caught plainToString unreachable "q" World.initial
      ⟨"TypeError", "Failed to fetch"⟩
      (by decide) rfl).1,
    (research_failure_is_caught plainToString unreachable "q" World.initial
      ⟨"TypeError", "Failed to fetch"⟩
      (by decide) rfl).2.1⟩

/-! ## C8, C9: the health probe -/

theorem checkHealth_eq (fetch : Fetch) :
    checkHealth fetch
      = match fetch healthRequest with
        | .error e => .error e
        | .ok resp => if resp.ok then resp.json else .error (newError "API health check failed")
      := by
  cases hf : fetch healthRequest with
  | error e =>
    simp [checkHealth, hf, tryCatch, tryCatchThe, MonadExcept.tryCatch,
      Except.tryCatch, bind, Except.bind, throw, throwThe, MonadExcept.throw]
    rfl
  | ok resp =>
    cases hok : resp.ok <;> cases hj : resp.json <;>
      simp [checkHealth, hf, hok, hj, tryCatch, tryCatchThe, MonadExcept.tryCatch,
        Except.tryCatch, bind, Except.bind, throw, throwThe, MonadExcept.throw] <;> rfl

theorem probeStatus_eq (body : JsValue) :
    (match getProp body "status" with
      | .error _ => ((.ok () : Except JsError Unit), ApiStatus.offline)
      | .ok status =>
        (.ok (), if strictEqStr status "ok" then ApiStatus.online else ApiStatus.offline)).2
      = probeStatus body := by
  cases body <;> simp [getProp, ownField, probeStatus, strictEqStr]

theorem probeStatus_cases (body : JsValue) :
    probeStatus body = .online ∨ probeStatus body = .offline := by
  unfold probeStatus
  split
  · exact Or.inl rfl
  · exact Or.inr rfl

theorem probeStatus_online_iff (body : JsValue) :
    probeStatus body = .online ↔ ownField body "status" = some (.str "ok") := by
  unfold probeStatus
  cases h : ownField body "status" with
  | none => simp [strictEqStr]
  | some v => cases v <;> simp [strictEqStr]

/-- C8: the status the probe `checkApiHealth` writes is `online` exactly when the
health request got a response with a successful HTTP status whose body has a `status`
field equal to the string `"ok"`. It is `offline` for a successful response whose
body has another `status` or none or does not parse, for every non-success status
whatever the body (`{ "status": "ok" }` included), and for every transport failure.
It is never `unknown`, the value of the cell before a probe has completed. -/
theorem health_mapping (fetch : Fetch) :
    ((checkApiHealth fetch).2 = .online ↔
      ∃ resp body, fetch healthRequest = .ok resp ∧ resp.ok = true ∧
        resp.json = .ok body ∧ ownField body "status" = some (.str "ok")) ∧
    ((checkApiHealth fetch).2 ≠ .online → (checkApiHealth fetch).2 = .offline) ∧
    (checkApiHealth fetch).2 ≠ initialApiStatus ∧
    (∀ resp body, fetch healthRequest = .ok resp → resp.ok = true → resp.json = .ok body →
      ownField body "status" ≠ some (.str "ok") → (checkApiHealth fetch).2 = .offline) ∧
    (∀ resp e, fetch healthRequest = .ok resp → resp.ok = true → resp.json = .error e →
      (checkApiHealth fetch).2 = .offline) ∧
    (∀ resp, fetch healthRequest = .ok resp → resp.ok = false →
      (checkApiHealth fetch).2 = .offline) ∧
    (∀ e, fetch healthRequest = .error e → (checkApiHealth fetch).2 = .offline) := by
  have hfail : ∀ e, fetch healthRequest = .error e → (checkApiHealth fetch).2 = .offline := by
    intro e hf
    simp [checkApiHealth, checkHealth_eq, hf]
  have hbad : ∀ resp, fetch healthRequest = .ok resp → resp.ok = false →
      (checkApiHealth fetch).2 = .offline := by
    intro resp hf hok
    simp [checkApiHealth, checkHealth_eq, hf, hok]
  have hjson : ∀ resp e, fetch healthRequest = .ok resp → resp.ok = true →
      resp.json = .error e → (checkApiHealth fetch).2 = .offline := by
    intro resp e hf hok hj
    simp [checkApiHealth, checkHealth_eq, hf, hok, hj]
  have hbody : ∀ resp body, fetch healthRequest = .ok resp → resp.ok = true →
      resp.json = .ok body →
      (checkApiHealth fetch).2 = probeStatus body := by
    intro resp body hf hok hj
    simp [checkApiHealth, checkHealth_eq, hf, hok, hj, probeStatus_eq]
  have hoff : ∀ resp body, fetch healthRequest = .ok resp → resp.ok = true →
      resp.json = .ok body → ownField body "status" ≠ some (.str "ok") →
      (checkApiHealth fetch).2 = .offline := by
    intro resp body hf hok hj hs
    rw [hbody resp body hf hok hj]
    exact (probeStatus_cases body).resolve_left ((probeStatus_online_iff body).not.mpr hs)
  have hon : (checkApiHealth fetch).2 = .online ↔
      ∃ resp body, fetch healthRequest = .ok resp ∧ resp.ok = true ∧
        resp.json = .ok body ∧ ownField body "status" = some (.str "ok") := by
    constructor
    · intro h
      cases hf : fetch healthRequest with
      | error e => rw [hfail e hf] at h; cases h
      | ok resp =>
        cases hok : resp.ok with
        | false => rw [hbad resp hf hok] at h; cases h
        | true =>
          cases hj : resp.json with
          | error e => rw [hjson resp e hf hok hj] at h; cases h
          | ok body =>
            rw [hbody resp body hf hok hj] at h
            exact ⟨resp, body, rfl, hok, hj, (probeStatus_online_iff body).mp h⟩
    · rintro ⟨resp, body, hf, hok, hj, hs⟩
      rw [hbody resp body hf hok hj]
      exact (probeStatus_online_iff body).mpr hs
  have hcases : (checkApiHealth fetch).2 = .online ∨ (checkApiHealth fetch).2 = .offline := by
    cases hf : fetch healthRequest with
    | error e => exact Or.inr (hfail e hf)
    | ok resp =>
      cases hok : resp.ok with
      | false => exact Or.inr (hbad resp hf hok)
      | true =>
        cases hj : resp.json with
        | error e => exact Or.inr (hjson resp e hf hok hj)
        | ok body =>
          rw [hbody resp body hf hok hj]
          exact probeStatus_cases body
  refine ⟨hon, ?_, ?_, hoff, hjson, hbad, hfail⟩
  · intro h
    exact hcases.resolve_left h
  · rcases hcases with h | h <;> rw [h] <;> decide

/-- C8 (witness): the probe on networks that answer 200 `{ "status": "ok" }`,
200 `{ "status": "degraded" }` and 503 `{ "status": "ok" }`, and on an unreachable
one. -/
theorem health_mapping_witness :
    (checkApiHealth (answering 200 (.ok (obj1 "status" (.str "ok"))))).2 = .online ∧
    (checkApiHealth (answering 200 (.ok (obj1 "status" (.str "degraded"))))).2 = .offline ∧
    (checkApiHealth (answering 503 (.ok (obj1 "status" (.str "ok"))))).2 = .offline ∧
    (checkApiHealth unreachable).2 = .offline :=
  ⟨(health_mapping (answering 200 (.ok (obj1 "status" (.str "ok"))))).1.mpr
      ⟨_, _, rfl, rfl, rfl, rfl⟩,
    (health_mapping (answering 200 (.ok (obj1 "status" (.str "degraded"))))).2.2.2.1
      _ _ rfl rfl rfl (by simp [ownField, obj1, JsFields.lookup]),
    (health_mapping (answering 503 (.ok (obj1 "status" (.str "ok"))))).2.2.2.2.2.1 _ rfl rfl,
    (health_mapping unreachable).2.2.2.2.2.2 _ rfl⟩

/-- C9 (counterexample): `apiService.checkHealth` throws. On a response with status
503 it throws `Error('API health check failed')`, and on a transport failure it
rethrows the error of `fetch`; in neither case does it return a value. -/
theorem checkHealth_throws :
    checkHealth (answering 503 (.ok (obj1 "status" (.str "ok"))))
      = .error (newError "API health check failed") ∧
    checkHealth unreachable = .error ⟨"TypeError", "Failed to fetch"⟩ :=
  ⟨rfl, rfl⟩

/-- C9 (amended): `apiService.checkHealth` returns a value only for a response with a
successful status and a parseable body, and the value is that body. For a transport
failure and for a malformed body it rethrows the error, and for a non-success status
it throws `Error('API health check failed')`. The function that never raises is its
caller `checkApiHealth` in `ResultsPage`: it completes normally for every outcome of
the health request, and whenever `checkHealth` throws it writes `offline`. -/
theorem checkHealth_outcomes (fetch : Fetch) :
    (∀ resp body, fetch healthRequest = .ok resp → resp.ok = true → resp.json = .ok body →
      checkHealth fetch = .ok body) ∧
    (∀ e, fetch healthRequest = .error e → checkHealth fetch = .error e) ∧
    (∀ resp e, fetch healthRequest = .ok resp → resp.ok = true → resp.json = .error e →
      checkHealth fetch = .error e) ∧
    (∀ resp, fetch healthRequest = .ok resp → resp.ok = false →
      checkHealth fetch = .error (newError "API health check failed")) ∧
    (checkApiHealth fetch).1 = .ok () ∧
    (∀ e, checkHealth fetch = .error e → (checkApiHealth fetch).2 = .offline) := by
  refine ⟨?_, ?_, ?_, ?_, ?_, ?_⟩
  · intro resp body hf hok hj
    simp [checkHealth_eq, hf, hok, hj]
  · intro e hf
    simp [checkHealth_eq, hf]
  · intro resp e hf hok hj
    simp [checkHealth_eq, hf, hok, hj]
  · intro resp hf hok
    simp [checkHealth_eq, hf, hok]
  · unfold checkApiHealth
    cases checkHealth fetch with
    | error e => rfl
    | ok health => cases hg : getProp health "status" <;> simp [hg]
  · intro e he
    simp [checkApiHealth, he]

/-- C9 (witness): the amended statement on a network that answers 503. -/
theorem checkHealth_outcomes_witness :
    checkHealth (answering 503 (.ok (obj1 "status" (.str "ok"))))
      = .error (newError "API health check failed") ∧
    (checkApiHealth (answering 503 (.ok (obj1 "status" (.str "ok"))))).1 = .ok () :=
  ⟨(checkHealth_outcomes (answering 503 (.ok (obj1 "status" (.str "ok"))))).2.2.2.1 _ rfl rfl,
    (checkHealth_outcomes (answering 503 (.ok (obj1 "status" (.str "ok"))))).2.2.2.2.1⟩

/-! ## C10: the percentages of a source -/

/-- The function `Math.round` is rounding half up: `floor (x + 1/2)`. -/
theorem mathRound_eq_floor (x : ℚ) : mathRound x = ⌊x + 1 / 2⌋ := by
  unfold mathRound
  have h0 := Int.floor_le x
  have h1 := Int.lt_floor_add_one x
  split
  · symm
    rw [Int.floor_eq_iff]
    constructor <;> linarith
  · symm
    rw [Int.floor_eq_iff]
    push_cast
    constructor <;> linarith

theorem roundHalfEven_error (x : ℚ) : |(roundHalfEven x : ℚ) - x| ≤ 1 / 2 := by
  have h0 := Int.floor_le x
  have h1 := Int.lt_floor_add_one x
  unfold roundHalfEven
  rw [abs_le]
  split_ifs <;> push_cast <;> constructor <;> linarith

theorem roundHalfEven_eq (x : ℚ) (m : ℤ) (h1 : (m : ℚ) - 1 / 2 < x) (h2 : x < m + 1 / 2) :
    roundHalfEven x = m := by
  have hf0 := Int.floor_le x
  have hf1 := Int.lt_floor_add_one x
  have hcases : ⌊x⌋ = m ∨ ⌊x⌋ = m - 1 := by
    have a : m - 1 ≤ ⌊x⌋ := by
      rw [Int.le_floor]; push_cast; linarith
    have b : ⌊x⌋ < m + 1 := by
      rw [Int.floor_lt]; push_cast; linarith
    omega
  unfold roundHalfEven
  rcases hcases with h | h
  · have hx : x - ⌊x⌋ < 1 / 2 := by rw [h]; linarith
    rw [if_pos hx, h]
  · have hx : ¬ (x - ⌊x⌋ < 1 / 2) := by rw [h]; push_cast; linarith
    have hx2 : 1 / 2 < x - ⌊x⌋ := by rw [h]; push_cast; linarith
    rw [if_neg hx, if_pos hx2, h]; ring

theorem ulp_pos (x : ℚ) : 0 < ulp x := by
  unfold ulp; positivity

theorem ulp_eq (x : ℚ) (e : ℤ) (he : -1022 ≤ e) (hlo : (2 : ℚ) ^ e ≤ |x|)
    (hhi : |x| < (2 : ℚ) ^ (e + 1)) : ulp x = (2 : ℚ) ^ (e - 52) := by
  have hpos : 0 < |x| := lt_of_lt_of_le (by positivity) hlo
  have h1 : e ≤ Int.log 2 |x| := by
    rw [← Int.zpow_le_iff_le_log (by norm_num) hpos]
    simpa using hlo
  have h2 : Int.log 2 |x| < e + 1 := by
    rw [← Int.lt_zpow_iff_log_lt (by norm_num) hpos]
    simpa using hhi
  have h3 : Int.log 2 |x| = e := by omega
  unfold ulp
  rw [h3, max_eq_left he]

theorem ulp_le (x : ℚ) (n : ℤ) (hn : 0 ≤ n) (hhi : |x| < (2 : ℚ) ^ (n + 1)) :
    ulp x ≤ (2 : ℚ) ^ (n - 52) := by
  unfold ulp
  apply zpow_le_zpow_right₀ (by norm_num)
  have hlog : Int.log 2 |x| ≤ n := by
    rcases eq_or_lt_of_le (abs_nonneg x) with h | h
    · rw [← h]; simpa using hn
    · have : Int.log 2 |x| < n + 1 := by
        rw [← Int.lt_zpow_iff_log_lt (by norm_num) h]
        simpa using hhi
      omega
  have : max (Int.log 2 |x|) (-1022) ≤ n := max_le hlog (by omega)
  omega

theorem toDouble_error (x : ℚ) (n : ℤ) (hn : 0 ≤ n) (hn2 : n ≤ 1000)
    (hhi : |x| < (2 : ℚ) ^ (n + 1)) :
    ∃ v : ℚ, toDouble x = .finite v ∧ |v - x| ≤ (2 : ℚ) ^ (n - 53) := by
  have hu := ulp_pos x
  have hule := ulp_le x n hn hhi
  have herr := roundHalfEven_error (x / ulp x)
  have hv : |(roundHalfEven (x / ulp x) : ℚ) * ulp x - x| ≤ (2 : ℚ) ^ (n - 53) := by
    have e1 : (roundHalfEven (x / ulp x) : ℚ) * ulp x - x
        = ((roundHalfEven (x / ulp x) : ℚ) - x / ulp x) * ulp x := by
      field_simp
    rw [e1, abs_mul, abs_of_pos hu]
    have e2 : (2 : ℚ) ^ (n - 53) = 1 / 2 * (2 : ℚ) ^ (n - 52) := by
      rw [show n - 53 = (n - 52) - 1 by ring, zpow_sub_one₀ (by norm_num)]
      ring
    rw [e2]
    exact mul_le_mul herr hule (le_of_lt hu) (by norm_num)
  refine ⟨_, ?_, hv⟩
  have hsmall : (2 : ℚ) ^ (n - 53) ≤ (2 : ℚ) ^ (1001 : ℤ) :=
    zpow_le_zpow_right₀ (by norm_num) (by omega)
  have hbig1 : (2 : ℚ) ^ (n + 1) ≤ (2 : ℚ) ^ (1001 : ℤ) :=
    zpow_le_zpow_right₀ (by norm_num) (by omega)
  have hbig2 : (2 : ℚ) ^ (1001 : ℤ) + (2 : ℚ) ^ (1001 : ℤ) < (2 : ℚ) ^ (1024 : ℤ) := by
    norm_num
  rw [abs_le] at hv
  rw [abs_lt] at hhi
  unfold toDouble
  rw [if_neg (by linarith), if_neg (by linarith)]


theorem toDouble_eq (x : ℚ) (e m : ℤ) (he : -1022 ≤ e) (hlo : (2 : ℚ) ^ e ≤ |x|)
    (hhi : |x| < (2 : ℚ) ^ (e + 1)) (h1 : (m : ℚ) - 1 / 2 < x / (2 : ℚ) ^ (e - 52))
    (h2 : x / (2 : ℚ) ^ (e - 52) < m + 1 / 2)
    (hfin : |(m : ℚ) * (2 : ℚ) ^ (e - 52)| < (2 : ℚ) ^ (1024 : ℤ)) :
    toDouble x = .finite (m * (2 : ℚ) ^ (e - 52)) := by
  have hu := ulp_eq x e he hlo hhi
  have hm : roundHalfEven (x / ulp x) = m := by
    rw [hu]
    exact roundHalfEven_eq _ m h1 h2
  rw [abs_lt] at hfin
  unfold toDouble
  rw [hm, hu, if_neg (by linarith), if_neg (by linarith)]

/-- The percentage of a score from the two roundings: the double `m1 * 2 ^ (e1 - 52)`
nearest to the score, the double `m2 * 2 ^ (e2 - 52)` nearest to its product by 100,
and the integer `k` that `Math.round` makes of it. -/
theorem scorePercent_of_steps (score : ℚ) (e1 m1 e2 m2 k : ℤ)
    (he1 : -1022 ≤ e1) (hlo1 : (2 : ℚ) ^ e1 ≤ |score|) (hhi1 : |score| < (2 : ℚ) ^ (e1 + 1))
    (ha1 : (m1 : ℚ) - 1 / 2 < score / (2 : ℚ) ^ (e1 - 52))
    (hb1 : score / (2 : ℚ) ^ (e1 - 52) < m1 + 1 / 2)
    (hfin1 : |(m1 : ℚ) * (2 : ℚ) ^ (e1 - 52)| < (2 : ℚ) ^ (1024 : ℤ))
    (he2 : -1022 ≤ e2) (hlo2 : (2 : ℚ) ^ e2 ≤ |(m1 : ℚ) * (2 : ℚ) ^ (e1 - 52) * 100|)
    (hhi2 : |(m1 : ℚ) * (2 : ℚ) ^ (e1 - 52) * 100| < (2 : ℚ) ^ (e2 + 1))
    (ha2 : (m2 : ℚ) - 1 / 2 < (m1 : ℚ) * (2 : ℚ) ^ (e1 - 52) * 100 / (2 : ℚ) ^ (e2 - 52))
    (hb2 : (m1 : ℚ) * (2 : ℚ) ^ (e1 - 52) * 100 / (2 : ℚ) ^ (e2 - 52) < m2 + 1 / 2)
    (hfin2 : |(m2 : ℚ) * (2 : ℚ) ^ (e2 - 52)| < (2 : ℚ) ^ (1024 : ℤ))
    (hk1 : (k : ℚ) ≤ (m2 : ℚ) * (2 : ℚ) ^ (e2 - 52) + 1 / 2)
    (hk2 : (m2 : ℚ) * (2 : ℚ) ^ (e2 - 52) + 1 / 2 < k + 1) :
    scorePercent score = .finite k := by
  have h1 := toDouble_eq score e1 m1 he1 hlo1 hhi1 ha1 hb1 hfin1
  have h2 := toDouble_eq _ e2 m2 he2 hlo2 hhi2 ha2 hb2 hfin2
  have h3 : mathRound ((m2 : ℚ) * (2 : ℚ) ^ (e2 - 52)) = k := by
    rw [mathRound_eq_floor, Int.floor_eq_iff]
    exact ⟨hk1, hk2⟩
  simp only [scorePercent, h1, times100, h2, roundNumber, h3]

theorem scorePercent_285 : scorePercent (285 / 1000) = .finite 28 := by
  apply scorePercent_of_steps (285 / 1000) (-2) 5134103575202365 4 8022036836253695 28 <;>
    norm_num [abs_of_pos]

theorem scorePercent_853 : scorePercent (853 / 1000) = .finite 85 := by
  apply scorePercent_of_steps (853 / 1000) (-1) 7683140964294066 6 6002453878354739 85 <;>
    norm_num [abs_of_pos]

theorem scorePercent_005 : scorePercent (5 / 1000) = .finite 1 := by
  apply scorePercent_of_steps (5 / 1000) (-8) 5764607523034235 (-1) 4503599627370496 1 <;>
    norm_num [abs_of_pos]

theorem scorePercent_09 : scorePercent (9 / 10) = .finite 90 := by
  apply scorePercent_of_steps (9 / 10) (-1) 8106479329266893 6 6333186975989760 90 <;>
    norm_num [abs_of_pos]

theorem scorePercent_08 : scorePercent (8 / 10) = .finite 80 := by
  apply scorePercent_of_steps (8 / 10) (-1) 7205759403792794 6 5629499534213120 80 <;>
    norm_num [abs_of_pos]

theorem scorePercent_15 : scorePercent (3 / 2) = .finite 150 := by
  apply scorePercent_of_steps (3 / 2) 0 6755399441055744 7 5277655813324800 150 <;>
    norm_num [abs_of_pos]

theorem scorePercent_neg02 : scorePercent (-1 / 5) = .finite (-20) := by
  apply scorePercent_of_steps (-1 / 5) (-3) (-7205759403792794) 4 (-5629499534213120) (-20) <;>
    norm_num [abs_of_neg]

theorem scorePercent_one : scorePercent 1 = .finite 100 := by
  apply scorePercent_of_steps 1 0 4503599627370496 6 7036874417766400 100 <;>
    norm_num [abs_of_pos]

theorem toDouble_zero : toDouble 0 = .finite 0 := by
  have hr : roundHalfEven (0 / ulp 0) = 0 := by
    rw [zero_div]
    exact roundHalfEven_eq 0 0 (by norm_num) (by norm_num)
  unfold toDouble
  rw [hr]
  norm_num

theorem scorePercent_zero : scorePercent 0 = .finite 0 := by
  have h : mathRound 0 = 0 := by
    rw [mathRound_eq_floor, Int.floor_eq_iff]
    norm_num
  simp only [scorePercent, toDouble_zero, times100, zero_mul, roundNumber, h, Int.cast_zero]

/-- A score in [0, 1]: both roundings are finite, the product as computed is within
`2 ^ (-45)` of a hundred times the score, and the percentage is its rounding half
up. -/
theorem scorePercent_unit (r : ℚ) (h0 : 0 ≤ r) (h1 : r ≤ 1) :
    ∃ p : ℚ, times100 (toDouble r) = .finite p ∧ |p - 100 * r| ≤ (2 : ℚ) ^ (-45 : ℤ) ∧
      scorePercent r = .finite ⌊p + 1 / 2⌋ := by
  obtain ⟨d, hd, hderr⟩ := toDouble_error r 0 (by norm_num) (by norm_num)
    (by rw [abs_of_nonneg h0]; norm_num; linarith)
  have hderr2 : |d - r| ≤ 1 / 9007199254740992 := by
    have e : (2 : ℚ) ^ ((0 : ℤ) - 53) = 1 / 9007199254740992 := by norm_num
    rwa [e] at hderr
  rw [abs_le] at hderr2
  have hd100 : |d * 100| < (2 : ℚ) ^ ((6 : ℤ) + 1) := by
    rw [abs_lt]
    norm_num
    constructor <;> linarith
  obtain ⟨p, hp, hperr⟩ := toDouble_error (d * 100) 6 (by norm_num) (by norm_num) hd100
  have hperr2 : |p - d * 100| ≤ 1 / 140737488355328 := by
    have e : (2 : ℚ) ^ ((6 : ℤ) - 53) = 1 / 140737488355328 := by norm_num
    rwa [e] at hperr
  rw [abs_le] at hperr2
  refine ⟨p, by rw [hd, times100, hp], ?_, ?_⟩
  · have e : (2 : ℚ) ^ (-45 : ℤ) = 1 / 35184372088832 := by norm_num
    rw [e, abs_le]
    constructor <;> linarith
  · rw [scorePercent, hd, times100, hp, roundNumber, mathRound_eq_floor]

theorem clamp01_of_mem (r : ℚ) (h0 : 0 ≤ r) (h1 : r ≤ 1) : clamp01 r = r := by
  unfold clamp01
  rw [min_eq_right h1, max_eq_right h0]

/-- What follows for a score in [0, 1] from the bound on the product. -/
theorem scorePercent_unit_facts (r : ℚ) (h0 : 0 ≤ r) (h1 : r ≤ 1) :
    ∃ n : ℤ, scorePercent r = .finite n ∧ 0 ≤ n ∧ n ≤ 100 ∧
      n - 1 ≤ ⌊100 * r + 1 / 2⌋ ∧ ⌊100 * r + 1 / 2⌋ ≤ n + 1 ∧
      ∀ k : ℤ, (k : ℚ) - 1 / 2 + (2 : ℚ) ^ (-45 : ℤ) ≤ 100 * r →
        100 * r < k + 1 / 2 - (2 : ℚ) ^ (-45 : ℤ) → n = k := by
  obtain ⟨p, _, hperr, hpct⟩ := scorePercent_unit r h0 h1
  have e : (2 : ℚ) ^ (-45 : ℤ) = 1 / 35184372088832 := by norm_num
  rw [e, abs_le] at hperr
  have hf0 := Int.floor_le (p + 1 / 2)
  have hf1 := Int.lt_floor_add_one (p + 1 / 2)
  have hg0 := Int.floor_le (100 * r + 1 / 2)
  have hg1 := Int.lt_floor_add_one (100 * r + 1 / 2)
  refine ⟨⌊p + 1 / 2⌋, hpct, ?_, ?_, ?_, ?_, ?_⟩
  · rw [Int.le_floor]
    push_cast
    linarith
  · rw [← Int.lt_add_one_iff, Int.floor_lt]
    push_cast
    linarith
  · have : (⌊p + 1 / 2⌋ : ℚ) - 1 < ⌊100 * r + 1 / 2⌋ + 1 := by linarith
    have : ⌊p + 1 / 2⌋ - 1 < ⌊100 * r + 1 / 2⌋ + 1 := by exact_mod_cast this
    omega
  · have : (⌊100 * r + 1 / 2⌋ : ℚ) < ⌊p + 1 / 2⌋ + 1 + 1 := by linarith
    have : ⌊100 * r + 1 / 2⌋ < ⌊p + 1 / 2⌋ + 1 + 1 := by exact_mod_cast this
    omega
  · intro k hk1 hk2
    rw [e] at hk1 hk2
    rw [Int.floor_eq_iff]
    constructor <;> linarith

/-- C10 (counterexample): a source with relevance and reliability 0.285, both in
[0, 1]. The product `0.285 * 100` is computed as the double 28.499999999999996, so
both labels show 28%, while `floor (100 * 0.285 + 1/2)` is 29. -/
theorem product_rounding_shows_28 :
    (0 : ℚ) ≤ 285 / 1000 ∧ (285 / 1000 : ℚ) ≤ 1 ∧
    relevanceLabel ⟨"S", "http://s", 285 / 1000, 285 / 1000⟩
      = ⟨"Relevance: ", .finite 28, "%"⟩ ∧
    reliabilityLabel ⟨"S", "http://s", 285 / 1000, 285 / 1000⟩
      = ⟨"Reliability: ", .finite 28, "%"⟩ ∧
    ⌊100 * (285 / 1000 : ℚ) + 1 / 2⌋ = 29 := by
  refine ⟨by norm_num, by norm_num, ?_, ?_, ?_⟩
  · rw [relevanceLabel, relevancePercent, scorePercent_285]
  · rw [reliabilityLabel, reliabilityPercent, scorePercent_285]
  · rw [Int.floor_eq_iff]
    norm_num

/-- C10 (amended): for every source with relevance `r` and reliability `q` in [0, 1],
the number shown is `Math.round` of the product as doubles compute it:
`floor (p + 1/2)`, where `p`, the double product of the parsed score and 100, is
within `2 ^ (-45)` of `100 * r`. The number is an integer between 0 and 100; it is
`floor (100 * r + 1/2)` whenever `100 * r` is at least `2 ^ (-45)` away from the two
rounding boundaries around it, and differs from it by at most 1 in every case. So
relevance 0.853 shows 85%, relevance 0.005 shows 1%, and relevance 0.9 with
reliability 0.8 shows 90% and 80%. -/
theorem percentages_round_double_product (source : Source)
    (hr : 0 ≤ source.relevance ∧ source.relevance ≤ 1)
    (hq : 0 ≤ source.reliability ∧ source.reliability ≤ 1) :
    (∃ p : ℚ, times100 (toDouble source.relevance) = .finite p ∧
      |p - 100 * source.relevance| ≤ (2 : ℚ) ^ (-45 : ℤ) ∧
      relevanceLabel source = ⟨"Relevance: ", .finite ⌊p + 1 / 2⌋, "%"⟩) ∧
    (∃ p : ℚ, times100 (toDouble source.reliability) = .finite p ∧
      |p - 100 * source.reliability| ≤ (2 : ℚ) ^ (-45 : ℤ) ∧
      reliabilityLabel source = ⟨"Reliability: ", .finite ⌊p + 1 / 2⌋, "%"⟩) ∧
    (∃ n : ℤ, relevancePercent source = .finite n ∧ 0 ≤ n ∧ n ≤ 100 ∧
      n - 1 ≤ ⌊100 * source.relevance + 1 / 2⌋ ∧
      ⌊100 * source.relevance + 1 / 2⌋ ≤ n + 1 ∧
      ∀ k : ℤ, (k : ℚ) - 1 / 2 + (2 : ℚ) ^ (-45 : ℤ) ≤ 100 * source.relevance →
        100 * source.relevance < k + 1 / 2 - (2 : ℚ) ^ (-45 : ℤ) → n = k) ∧
    (∃ n : ℤ, reliabilityPercent source = .finite n ∧ 0 ≤ n ∧ n ≤ 100 ∧
      n - 1 ≤ ⌊100 * source.reliability + 1 / 2⌋ ∧
      ⌊100 * source.reliability + 1 / 2⌋ ≤ n + 1 ∧
      ∀ k : ℤ, (k : ℚ) - 1 / 2 + (2 : ℚ) ^ (-45 : ℤ) ≤ 100 * source.reliability →
        100 * source.reliability < k + 1 / 2 - (2 : ℚ) ^ (-45 : ℤ) → n = k) ∧
    relevanceLabel { source with relevance := 853 / 1000 }
      = ⟨"Relevance: ", .finite 85, "%"⟩ ∧
    relevanceLabel { source with relevance := 5 / 1000 }
      = ⟨"Relevance: ", .finite 1, "%"⟩ ∧
    relevanceLabel { source with relevance := 9 / 10, reliability := 8 / 10 }
      = ⟨"Relevance: ", .finite 90, "%"⟩ ∧
    reliabilityLabel { source with relevance := 9 / 10, reliability := 8 / 10 }
      = ⟨"Reliability: ", .finite 80, "%"⟩ := by
  refine ⟨?_, ?_, scorePercent_unit_facts _ hr.1 hr.2, scorePercent_unit_facts _ hq.1 hq.2,
    ?_, ?_, ?_, ?_⟩
  · obtain ⟨p, hp, herr, hpct⟩ := scorePercent_unit _ hr.1 hr.2
    exact ⟨p, hp, herr, by rw [relevanceLabel, relevancePercent, hpct]⟩
  · obtain ⟨p, hp, herr, hpct⟩ := scorePercent_unit _ hq.1 hq.2
    exact ⟨p, hp, herr, by rw [reliabilityLabel, reliabilityPercent, hpct]⟩
  · rw [relevanceLabel, relevancePercent, scorePercent_853]
  · rw [relevanceLabel, relevancePercent, scorePercent_005]
  · rw [relevanceLabel, relevancePercent, scorePercent_09]
  · rw [reliabilityLabel, reliabilityPercent, scorePercent_08]

/-- C10 (witness): the source `S1` with relevance 0.9 and reliability 0.8: both lie
in [0, 1], 90 is at least `2 ^ (-45)` away from 89.5 and from 90.5, and the number
shown for relevance is 90. -/
theorem percentages_round_double_product_witness :
    ((0 : ℚ) ≤ 9 / 10 ∧ (9 / 10 : ℚ) ≤ 1) ∧
    ((0 : ℚ) ≤ 8 / 10 ∧ (8 / 10 : ℚ) ≤ 1) ∧
    relevancePercent ⟨"S1", "http://s1", 9 / 10, 8 / 10⟩ = .finite 90 ∧
    reliabilityLabel ⟨"S1", "http://s1", 9 / 10, 8 / 10⟩
      = ⟨"Reliability: ", .finite 80, "%"⟩ := by
  have h := percentages_round_double_product ⟨"S1", "http://s1", 9 / 10, 8 / 10⟩
    ⟨by norm_num, by norm_num⟩ ⟨by norm_num, by norm_num⟩
  refine ⟨⟨by norm_num, by norm_num⟩, ⟨by norm_num, by norm_num⟩, ?_, h.2.2.2.2.2.2.2⟩
  obtain ⟨n, hn, _, _, _, _, hk⟩ := h.2.2.1
  have h90 : n = 90 := hk 90 (by norm_num) (by norm_num)
  rw [hn, h90]
  rfl

/-! ## C11, C12, C13: the report view -/

theorem mapM_of_ok {α β : Type} (f : α → Except JsError β) (g : α → β)
    (h : ∀ a, f a = .ok (g a)) (items : List α) :
    items.mapM f = .ok (items.map g) := by
  induction items with
  | nil => rfl
  | cons a rest ih =>
    rw [List.mapM_cons, h a, ih]
    rfl

theorem guardedMap_of_ok {α β : Type} (f : α → Except JsError β) (g : α → β)
    (h : ∀ a, f a = .ok (g a)) (xs : Option (List α)) :
    guardedMap xs f = .ok ((itemsOf xs).map g) := by
  cases xs with
  | none => rfl
  | some items => simpa [guardedMap, mapMethod, itemsOf] using mapM_of_ok f g h items

theorem renderTopic_eq (topic : Topic) : renderTopic topic = .ok (topicItem topic) := by
  unfold renderTopic
  rw [guardedMap_of_ok renderPoint pointItem (fun _ => rfl)]
  rfl

theorem renderReport_eq (report : Report) :
    renderReport report
      = .ok [.heading ("Research Results: " ++ report.query), .summary report.summary,
          .keyFindings ((itemsOf report.topics).map topicItem),
          .conclusions (itemsOf report.conclusions),
          .sources ((itemsOf report.sources).map sourceItem),
          .searchResults ((itemsOf report.search_results).map resultItem)] := by
  unfold renderReport
  rw [guardedMap_of_ok renderTopic topicItem renderTopic_eq,
    guardedMap_of_ok renderConclusion id (fun _ => rfl),
    guardedMap_of_ok renderSource sourceItem (fun _ => rfl),
    guardedMap_of_ok renderResult resultItem (fun _ => rfl)]
  simp only [List.map_id]
  rfl

/-- C11 (counterexample): a source with relevance 1.5 and reliability -0.2 is shown
with 150% and -20%. Neither number lies between 0 and 100, and the values clamped to
[0, 1], which are 1 and 0, would be shown as 100% and 0%. -/
theorem unclamped_scores_are_shown :
    renderSource ⟨"S", "http://s", 3 / 2, -1 / 5⟩
      = .ok ⟨"S", "http://s", "http://s", ⟨"Relevance: ", .finite 150, "%"⟩,
          ⟨"Reliability: ", .finite (-20), "%"⟩⟩ ∧
    clamp01 (3 / 2) = 1 ∧ scorePercent (clamp01 (3 / 2)) = .finite 100 ∧
    clamp01 (-1 / 5) = 0 ∧ scorePercent (clamp01 (-1 / 5)) = .finite 0 := by
  have c1 : clamp01 (3 / 2) = 1 := by norm_num [clamp01]
  have c2 : clamp01 (-1 / 5) = 0 := by norm_num [clamp01]
  refine ⟨?_, c1, by rw [c1, scorePercent_one], c2, by rw [c2, scorePercent_zero]⟩
  rw [renderSource, relevanceLabel, reliabilityLabel, relevancePercent, reliabilityPercent,
    scorePercent_15, scorePercent_neg02]

/-- C11 (amended): for every source, whatever its relevance and reliability (values
below 0 and above 1 included), rendering succeeds and each number shown is
`Math.round` of the product of the value itself by 100: nothing is clamped. For a
value in [0, 1] the number shown is an integer between 0 and 100 inclusive, equal to
the rounded percentage of the value clamped to [0, 1]. -/
theorem scores_shown_unclamped (source : Source) :
    renderSource source = .ok (sourceItem source) ∧
    (sourceItem source).relevance
      = ⟨"Relevance: ", roundNumber (times100 (toDouble source.relevance)), "%"⟩ ∧
    (sourceItem source).reliability
      = ⟨"Reliability: ", roundNumber (times100 (toDouble source.reliability)), "%"⟩ ∧
    (0 ≤ source.relevance → source.relevance ≤ 1 →
      ∃ n : ℤ, relevancePercent source = .finite n ∧ 0 ≤ n ∧ n ≤ 100 ∧
        relevancePercent source = scorePercent (clamp01 source.relevance)) ∧
    (0 ≤ source.reliability → source.reliability ≤ 1 →
      ∃ n : ℤ, reliabilityPercent source = .finite n ∧ 0 ≤ n ∧ n ≤ 100 ∧
        reliabilityPercent source = scorePercent (clamp01 source.reliability)) := by
  refine ⟨rfl, rfl, rfl, ?_, ?_⟩
  · intro h0 h1
    obtain ⟨n, hn, hlo, hhi, _⟩ := scorePercent_unit_facts _ h0 h1
    exact ⟨n, hn, hlo, hhi, by rw [clamp01_of_mem _ h0 h1, relevancePercent]⟩
  · intro h0 h1
    obtain ⟨n, hn, hlo, hhi, _⟩ := scorePercent_unit_facts _ h0 h1
    exact ⟨n, hn, hlo, hhi, by rw [clamp01_of_mem _ h0 h1, reliabilityPercent]⟩

/-- C11 (witness): the source `S1` with relevance 0.9 and reliability 0.8, both in
[0, 1]. -/
theorem scores_shown_unclamped_witness :
    (0 : ℚ) ≤ 9 / 10 ∧ (9 / 10 : ℚ) ≤ 1 ∧
    ∃ n : ℤ, relevancePercent ⟨"S1", "http://s1", 9 / 10, 8 / 10⟩ = .finite n ∧
      0 ≤ n ∧ n ≤ 100 ∧
      relevancePercent ⟨"S1", "http://s1", 9 / 10, 8 / 10⟩
        = scorePercent (clamp01 (9 / 10)) :=
  ⟨by norm_num, by norm_num,
    (scores_shown_unclamped ⟨"S1", "http://s1", 9 / 10, 8 / 10⟩).2.2.2.1
      (by norm_num) (by norm_num)⟩

/-- C12: for every report, rendering succeeds, and an absent sequence renders as the
empty one does. Making `topics`, `conclusions`, `sources` or `search_results` absent
or empty changes the rendering in one place only: the section of that sequence has
zero items, and every other child is as it was. A topic whose `points` is absent or
empty renders with its title and zero points. -/
theorem absent_sequences_render_empty (report : Report) (topic : Topic) :
    (∃ blocks, renderReport report = .ok blocks ∧ blocks.length = 6) ∧
    renderReport (fillAbsent report) = renderReport report ∧
    renderReport { report with topics := none }
      = (renderReport report).map (fun blocks => blocks.set 2 (.keyFindings [])) ∧
    renderReport { report with topics := some [] }
      = (renderReport report).map (fun blocks => blocks.set 2 (.keyFindings [])) ∧
    renderReport { report with conclusions := none }
      = (renderReport report).map (fun blocks => blocks.set 3 (.conclusions [])) ∧
    renderReport { report with conclusions := some [] }
      = (renderReport report).map (fun blocks => blocks.set 3 (.conclusions [])) ∧
    renderReport { report with sources := none }
      = (renderReport report).map (fun blocks => blocks.set 4 (.sources [])) ∧
    renderReport { report with sources := some [] }
      = (renderReport report).map (fun blocks => blocks.set 4 (.sources [])) ∧
    renderReport { report with search_results := none }
      = (renderReport report).map (fun blocks => blocks.set 5 (.searchResults [])) ∧
    renderReport { report with search_results := some [] }
      = (renderReport report).map (fun blocks => blocks.set 5 (.searchResults [])) ∧
    renderTopic { topic with points := none } = .ok ⟨topic.name, []⟩ ∧
    renderTopic { topic with points := some [] } = .ok ⟨topic.name, []⟩ ∧
    renderReport ⟨report.query, report.summary, none, none, none, none⟩
      = .ok [.heading ("Research Results: " ++ report.query), .summary report.summary,
          .keyFindings [], .conclusions [], .sources [], .searchResults []] := by
  have hfill : renderReport (fillAbsent report) = renderReport report := by
    rw [renderReport_eq, renderReport_eq]
    simp [fillAbsent, itemsOf, topicItem, Function.comp_def]
  refine ⟨⟨_, renderReport_eq report, rfl⟩, hfill,
    ?_, ?_, ?_, ?_, ?_, ?_, ?_, ?_, ?_, ?_, ?_⟩ <;>
    first
    | (simp only [renderReport_eq]; rfl)
    | (simp only [renderTopic_eq]; rfl)

/-- C12 (witness): the scenario report (whose `search_results` is absent) with its
`topics` made absent too, and the same report with every sequence absent. -/
theorem absent_sequences_render_empty_witness :
    renderReport { sampleReport with topics := none }
      = (renderReport sampleReport).map (fun blocks => blocks.set 2 (.keyFindings [])) ∧
    renderReport ⟨"electric vehicle impacts", "...", none, none, none, none⟩
      = .ok [.heading "Research Results: electric vehicle impacts", .summary "...",
          .keyFindings [], .conclusions [], .sources [], .searchResults []] :=
  ⟨(absent_sequences_render_empty sampleReport ⟨"Overview", none⟩).2.2.1,
    (absent_sequences_render_empty sampleReport ⟨"Overview", none⟩).2.2.2.2.2.2.2.2.2.2.2.2⟩

/-- C13: for every report, the children of the report view are, in this order, the
heading with the query, the summary, the topics section, the conclusions section, the
sources section and the search-results section. The topics section has one entry per
topic, in input order, with the topic's name and one entry per point, in input order,
with the point's text, source and url; the other three sections have one entry per
input element, in input order, with that element's fields. An absent sequence counts
as empty. -/
theorem render_preserves_order (report : Report) :
    ∃ (topics : List TopicItem) (conclusions : List String) (sources : List SourceItem)
        (results : List ResultItem),
      renderReport report
        = .ok [.heading ("Research Results: " ++ report.query), .summary report.summary,
            .keyFindings topics, .conclusions conclusions, .sources sources,
            .searchResults results] ∧
      topics.length = (itemsOf report.topics).length ∧
      (∀ i : Nat, topics[i]? = ((itemsOf report.topics)[i]?).map (fun (topic : Topic) =>
        (⟨topic.name, (itemsOf topic.points).map (fun (point : Point) =>
          (⟨point.text, point.url, point.source⟩ : PointItem))⟩ : TopicItem))) ∧
      (∀ (i : Nat) (item : TopicItem) (topic : Topic), topics[i]? = some item →
        (itemsOf report.topics)[i]? = some topic →
        item.title = topic.name ∧ item.points.length = (itemsOf topic.points).length ∧
        ∀ j : Nat, item.points[j]? = ((itemsOf topic.points)[j]?).map (fun (point : Point) =>
          (⟨point.text, point.url, point.source⟩ : PointItem))) ∧
      conclusions = itemsOf report.conclusions ∧
      sources.length = (itemsOf report.sources).length ∧
      (∀ i : Nat, sources[i]? = ((itemsOf report.sources)[i]?).map (fun (source : Source) =>
        (⟨source.title, source.url, source.url, relevanceLabel source,
          reliabilityLabel source⟩ : SourceItem))) ∧
      results.length = (itemsOf report.search_results).length ∧
      (∀ i : Nat, results[i]? = ((itemsOf report.search_results)[i]?).map
        (fun (result : SearchResult) =>
        (⟨result.title, result.url, result.url, result.snippet⟩ : ResultItem))) := by
  refine ⟨_, _, _, _, renderReport_eq report, by simp, ?_, ?_, rfl, by simp, ?_, by simp, ?_⟩
  · intro i
    rw [List.getElem?_map]
    rfl
  · intro i item topic hi ht
    rw [List.getElem?_map, ht] at hi
    simp only [Option.map_some', Option.some.injEq] at hi
    subst hi
    refine ⟨rfl, by simp [topicItem], ?_⟩
    intro j
    simp only [topicItem]
    rw [List.getElem?_map]
    rfl
  · intro i
    rw [List.getElem?_map]
    rfl
  · intro i
    rw [List.getElem?_map]
    rfl

/-- C13 (witness): the scenario report renders one topic with one point, the
conclusion `c1`, one source and no search results. -/
theorem render_preserves_order_witness :
    ∃ (topics : List TopicItem) (sources : List SourceItem),
      renderReport sampleReport
        = .ok [.heading "Research Results: electric vehicle impacts", .summary "...",
            .keyFindings topics, .conclusions ["c1"], .sources sources,
            .searchResults []] ∧
      topics[0]? = some ⟨"Overview", [⟨"...", "http://x", "X"⟩]⟩ ∧
      sources.length = 1 :=
  match render_preserves_order sampleReport with
  | ⟨topics, _, sources, _, hrender, _, htopics, _, hconclusions, hsources, _, hresults, _⟩ =>
    ⟨topics, sources,
      by
        have hr := List.eq_nil_of_length_eq_zero hresults
        rw [hrender, hconclusions, hr]
        rfl,
      htopics 0, hsources⟩

/-! ## C14: loading and error -/

/-- C14: in every state reachable from start-up by any interleaving of submissions (of
any queries, blank ones included) and resolutions (successes and failures, in any
completion order), observed between handler steps, it is not the case that
`isLoading` is true and `error` is non-null; the results view then never has both the
loading state and an error message to show. -/
theorem loading_excludes_error (s : Sys) (h : Reachable s) :
    ¬ (s.world.app.isLoading = true ∧ s.world.app.error ≠ none) ∧
    (s.world.app.isLoading = true → s.world.app.error = none) ∧
    (s.world.app.error ≠ none → s.world.app.isLoading = false) := by
  have hc := (cellsConsistent_of_reachable h).1
  refine ⟨fun ⟨hl, he⟩ => he (hc hl), hc, ?_⟩
  intro he
  cases hl : s.world.app.isLoading with
  | false => rfl
  | true => exact absurd (hc hl) he

/-- C14 (witness): two submissions are outstanding and the first one fails. The
second is still in flight, `error` holds the message and `isLoading` is false. -/
theorem loading_excludes_error_witness :
    ∃ t : Sys,
      run Sys.initial [.submit "a", .submit "b",
        .resolve 0 (.error ⟨"TypeError", "Failed to fetch"⟩)] = some t ∧
      Reachable t ∧ t.pending = [1] ∧ t.world.app.error = some "Failed to fetch" ∧
      ¬ (t.world.app.isLoading = true ∧ t.world.app.error ≠ none) :=
  ⟨_, rfl,
    reachable_of_run [.submit "a", .submit "b",
      .resolve 0 (.error ⟨"TypeError", "Failed to fetch"⟩)] _ rfl,
    rfl, rfl,
    (loading_excludes_error _ (reachable_of_run [.submit "a", .submit "b",
      .resolve 0 (.error ⟨"TypeError", "Failed to fetch"⟩)] _ rfl)).1⟩

end ResearchApp
